import Mathlib

/-
Verification development for `src/codegen_function.py` of the numpyeigen
repository: the compiler that turns an `npe_*` binding description into a
pybind11/Eigen dispatch function.

The embedding below translates the Python source at the level of its
observable data:

* Input is a list of physical lines.  A Python line read from a file carries
  its trailing newline; here a line is a `String` WITHOUT the newline, and
  text fields that Python accumulates by string concatenation of lines
  (`_preamble`, `_source_code`) are kept as `List String` of those lines
  (rendered with `py_join_lines` when the generator needs the text).

* Python `str` methods used by the source are re-implemented character-wise
  (`py_strip`, `py_lower`, ...) over `String.data`.  Inputs are ASCII; the
  whitespace set of `str.strip()` is modelled by `Char.isWhitespace`.

* Python lists indexed by possibly-negative `int` indices are modelled by
  `py_get` / `py_set` / `py_modify` with Python's negative-index semantics
  (an index `i < 0` addresses element `len + i`); an out-of-range access is
  an `IndexError`, surfaced as `NpeError.indexError`.

* Python dicts (insertion ordered) are association lists with
  `dict_get` / `dict_set`.

* Exceptions (`ParseError`, `SemanticError`, and the unhandled
  `AssertionError` / `IndexError` / `KeyError` / `TypeError` the source can
  raise) are the `Except NpeError` monad; each `NpeError` constructor
  corresponds to one `raise` site (or unhandled-exception site) of the
  source.

An important detail of the source, reflected faithfully here: the reader
class `NpeFileReader` increments its `line_number` only inside its
`readline` method, but all parsing loops iterate the reader with
`for line in file_reader`, which calls `__next__`, and `__next__` reads via
`self.file.readline()` directly WITHOUT incrementing `line_number`.  The
counter therefore stays `0` for the whole parse, and every statement and
every error is tagged with line number `0 + 1 = 1`.  The embedding passes
the constant `1` wherever the source passes `file_reader.line_number + 1`.
-/

set_option autoImplicit false

/-! ## Python string primitives -/

/-- Python `str.strip()` on the left: drop leading whitespace characters. -/
def py_lstrip_chars (cs : List Char) : List Char := cs.dropWhile Char.isWhitespace

/-- Python `str.strip()`: drop leading and trailing whitespace characters. -/
def py_strip (s : String) : String :=
  ⟨((py_lstrip_chars s.data).reverse.dropWhile Char.isWhitespace).reverse⟩

/-- Python `str.lower()` (ASCII inputs). -/
def py_lower (s : String) : String := ⟨s.data.map Char.toLower⟩

/-- Python `str.startswith(t)`. -/
def py_startswith (s t : String) : Bool := t.data.isPrefixOf s.data

/-- Python `str.endswith(t)`. -/
def py_endswith (s t : String) : Bool := t.data.reverse.isPrefixOf s.data.reverse

/-- Python `len(s)` (number of characters). -/
def py_len (s : String) : Nat := s.data.length

/-- Python slice `s[n:]`. -/
def py_drop (s : String) (n : Nat) : String := ⟨s.data.drop n⟩

/-- Python slice `s[:-1]` (empty string stays empty). -/
def py_drop_last (s : String) : String := ⟨s.data.dropLast⟩

/-- Python `str.replace(".", "_")` (single-character pattern). -/
def py_replace_dot (s : String) : String :=
  ⟨s.data.map (fun c => if c = '.' then '_' else c)⟩

/-- `os.path.basename`: the part after the last `/`. -/
def py_basename_go : List Char → List Char → List Char
  | [], acc => acc.reverse
  | '/' :: cs, _ => py_basename_go cs []
  | c :: cs, acc => py_basename_go cs (c :: acc)

/-- `os.path.basename` on a POSIX path. -/
def py_basename (s : String) : String := ⟨py_basename_go s.data []⟩

/-- Rendering of a `List String` of lines back to the text the Python side
holds (each line carries its newline). -/
def py_join_lines (lines : List String) : String :=
  String.join (lines.map (fun l => l ++ "\n"))

/-- Python `repr` of a list of strings, as produced by `"%s" % the_list`:
`['a', 'b']`. -/
def py_str_list (l : List String) : String :=
  "[" ++ String.intercalate ", " (l.map (fun s => "\x27" ++ s ++ "\x27")) ++ "]"

/-! ## Python list / dict semantics -/

/-- Translate a Python `int` index into a position, with Python's
negative-index wrap-around; `none` is an `IndexError`. -/
def py_index (len : Nat) (i : Int) : Option Nat :=
  let j : Int := if i < 0 then i + len else i
  if 0 ≤ j ∧ j < (len : Int) then some j.toNat else none

/-- Python `l[i]` (possibly negative `i`). -/
def py_get {α : Type} (l : List α) (i : Int) : Option α :=
  (py_index l.length i).bind (fun n => l.get? n)

/-- Python `l[i] = v`. -/
def py_set {α : Type} (l : List α) (i : Int) (v : α) : Option (List α) :=
  (py_index l.length i).map (fun n => l.set n v)

/-- Python in-place mutation of the object at `l[i]`. -/
def py_modify {α : Type} (l : List α) (i : Int) (f : α → α) : Option (List α) :=
  (py_index l.length i).bind (fun n => (l.get? n).map (fun v => l.set n (f v)))

/-- Python dict lookup `d[k]` / `k in d` (insertion-ordered assoc list). -/
def dict_get {α : Type} (d : List (String × α)) (k : String) : Option α :=
  (d.find? (fun p => p.1 == k)).map (fun p => p.2)

/-- Python dict update `d[k] = v`: replace in place if present, else append. -/
def dict_set {α : Type} (d : List (String × α)) (k : String) (v : α) :
    List (String × α) :=
  if (d.find? (fun p => p.1 == k)).isSome then
    d.map (fun p => if p.1 == k then (k, v) else p)
  else d ++ [(k, v)]

/-! ## Type catalog (`NUMPY_ARRAY_TYPES_TO_CPP`) -/

/-- The fixed catalog mapping an array-type identifier to its
(C++ scalar type, short code, numpy name) triple; source lines 22-53. -/
def NUMPY_ARRAY_TYPES_TO_CPP : List (String × String × String × String) :=
  [ ("dense_f32", ("float", "f32", "float32")),
    ("dense_f64", ("double", "f64", "float64")),
    ("dense_f128", ("__float128", "f128", "float128")),
    ("dense_i8", ("std::int8_t", "i8", "int8")),
    ("dense_i16", ("std::int16_t", "i16", "int16")),
    ("dense_i32", ("std::int32_t", "i32", "int32")),
    ("dense_i64", ("std::int64_t", "i64", "int64")),
    ("dense_u8", ("std::uint8_t", "u8", "uint8")),
    ("dense_u16", ("std::uint16_t", "u16", "uint16")),
    ("dense_u32", ("std::uint32_t", "u32", "uint32")),
    ("dense_u64", ("std::uint64_t", "u64", "uint64")),
    ("dense_c64", ("std::complex<float>", "c64", "complex64")),
    ("dense_c128", ("std::complex<double>", "c128", "complex128")),
    ("dense_c256", ("std::complex<__float128>", "c256", "complex256")),
    ("sparse_f32", ("float", "f32", "float32")),
    ("sparse_f64", ("double", "f64", "float64")),
    ("sparse_f128", ("__float128", "f128", "float128")),
    ("sparse_i8", ("std::int8_t", "i8", "int8")),
    ("sparse_i16", ("std::int16_t", "i16", "int16")),
    ("sparse_i32", ("std::int32_t", "i32", "int32")),
    ("sparse_i64", ("std::int64_t", "i64", "int64")),
    ("sparse_u8", ("std::uint8_t", "u8", "uint8")),
    ("sparse_u16", ("std::uint16_t", "u16", "uint16")),
    ("sparse_u32", ("std::uint32_t", "u32", "uint32")),
    ("sparse_u64", ("std::uint64_t", "u64", "uint64")),
    ("sparse_c64", ("std::complex<float>", "c64", "complex64")),
    ("sparse_c128", ("std::complex<double>", "c128", "complex128")),
    ("sparse_c256", ("std::complex<__float128>", "c256", "complex256")) ]

/-- `NUMPY_ARRAY_TYPES = list(NUMPY_ARRAY_TYPES_TO_CPP.keys())`. -/
def NUMPY_ARRAY_TYPES : List String := NUMPY_ARRAY_TYPES_TO_CPP.map Prod.fst

/-- Catalog lookup `NUMPY_ARRAY_TYPES_TO_CPP[t]` (a missing key is a
`KeyError` at the call sites). -/
def numpy_type_info (t : String) : Option (String × String × String) :=
  dict_get NUMPY_ARRAY_TYPES_TO_CPP t

/-- `is_numpy_type` (source lines 161-168): membership of the LOWERCASED
string in the catalog's key list. -/
def is_numpy_type (typestr : String) : Bool :=
  NUMPY_ARRAY_TYPES.contains (py_lower typestr)

/-- `is_sparse_type` (source lines 171-177): note the `startswith` test is on
the ORIGINAL spelling, unlike the lowercased `is_numpy_type` test. -/
def is_sparse_type (type_name : String) : Bool :=
  is_numpy_type type_name && py_startswith type_name "sparse_"

/-- `is_dense_type` (source lines 180-186). -/
def is_dense_type (type_name : String) : Bool :=
  is_numpy_type type_name && py_startswith type_name "dense_"

/-! ## Errors -/

/-- One constructor per `raise` site (or unhandled-exception site) reachable
in the live code paths of the source.  String/Nat payloads carry the data
interpolated into the corresponding Python message. -/
inductive NpeError where
  /-- `tokenize_npe_line`: malformed/unterminated statement (spec §4.1
  TokenizationError; the source surfaces this as a CPP error → ParseError). -/
  | tokenizationError (line : Nat)
  /-- `tokenize_npe_line` line 135: extra tokens after the statement. -/
  | tokenizationExtraTokens (line : Nat)
  /-- `tokenize_npe_line` line 144: maximum recursion depth (argument bound). -/
  | tokenizationMaxDepth (line : Nat)
  /-- `consume_token` line 203: line does not start with the wanted token. -/
  | missingToken (tok : String) (line : Nat)
  /-- `consume_eol` line 217: trailing junk after `)`. -/
  | expectedEol (line : Nat)
  /-- `_parse_matches_statement` line 384: missing `)` of `matches(...)`. -/
  | missingMatchesRParen (line : Nat)
  /-- `_parse_arg_statement` line 407: no type arguments. -/
  | noTypeArguments (stmt : String) (var : String)
  /-- `_parse_arg_statement` line 413: invalid type in a multi-type list. -/
  | invalidType (t : String) (stmt : String) (line : Nat)
  /-- `_parse` lines 515-532: statement before `npe_function`. -/
  | statementBeforeFunction (stmt : String) (line : Nat)
  /-- `_parse` line 542: input without an `npe_function` statement. -/
  | invalidBindingNoFunction
  /-- `_parse` line 603: input without an `npe_begin_code` statement. -/
  | noBeginCode
  /-- `_parse` line 600: unrecognized line in the argument phase. -/
  | unexpectedTokensAtLine (line : Nat)
  /-- `_parse` line 572: second `npe_doc` statement. -/
  | multipleDocStatements (line : Nat)
  /-- `_parse_doc_statement` line 469: doc statement without a string. -/
  | docNoString (line : Nat)
  /-- `_parse_doc_statement` line 472: more than one doc token. -/
  | docExtraTokens (line : Nat)
  /-- `_parse` line 613: non-blank content after `npe_end_code()`. -/
  | expectedEndOfFile (line : Nat)
  /-- `_parse` line 617: end of input before `npe_end_code()`. -/
  | unexpectedEndOfFile
  /-- `_validate` line 626: mix of sparse and dense types for an argument. -/
  | semanticMixedSparseDense (arg : String) (line : Nat)
  /-- `_validate` line 639: `matches` argument never matched with a type. -/
  | semanticUnmatched (arg : String) (line : Nat) (matchesName : String)
  /-- An `assert` statement of the source failing (unhandled in `__main__`). -/
  | assertionError
  /-- An unhandled Python `IndexError` (list subscript out of range). -/
  | indexError
  /-- An unhandled Python `KeyError` (dict subscript). -/
  | keyError (k : String)
  /-- An unhandled Python `TypeError` (`tokens[1, :]` at source line 490). -/
  | typeError
deriving Repr, DecidableEq

/-! ## Binding model -/

/-- `NpeArgument` (source lines 279-296).  The source also stores a `group`
back-reference on the object (written at lines 455 and 629, with two
different types: the group object, then the group index) — that attribute is
never read anywhere in the live code, so it is not carried here; group
membership lives in `argument_name_to_group` / the groups arena, exactly the
structures the source consults. -/
structure NpeArgument where
  name : String
  is_matches : Bool
  name_or_type : List String
  line_number : Nat
  is_sparse : Bool := false
  is_dense : Bool := false
  default_value : Option String := none
  matches_name : String := ""
deriving Repr, DecidableEq

/-- `arg.is_numpy_type` property (source lines 291-293). -/
def NpeArgument.is_numpy_prop (a : NpeArgument) : Bool := a.is_sparse || a.is_dense

/-- `NpeArgumentGroup` (source lines 299-305).  The member list is only ever
consulted for the `.name` of its entries, so the snapshot of each argument's
metadata taken at insertion time is sufficient (the source aliases the same
mutable object from the dict and the group; only flags — never names — are
mutated after insertion). -/
structure NpeArgumentGroup where
  arguments : List NpeArgument
  types : List String
deriving Repr, DecidableEq

/-- The mutable state of `NpeFunction` (source lines 308-320). -/
structure NpeFunction where
  name : String := ""
  input_type_groups : List NpeArgumentGroup := []
  argument_name_to_group : List (String × Int) := []
  argument_names : List String := []
  arguments : List (String × NpeArgument) := []
  source_code : List String := []
  preamble : List String := []
  docstr : String := ""
deriving Repr, DecidableEq

/-- A freshly constructed `NpeFunction` before parsing. -/
def npe_function_init : NpeFunction := {}

/-- `has_array_arguments` property (source lines 347-358). -/
def has_array_arguments (f : NpeFunction) : Bool :=
  f.argument_names.any (fun n =>
    match dict_get f.arguments n with
    | some a => is_numpy_type (a.name_or_type.headD "") || a.is_matches
    | none => false)

/-- The `array_arguments` property (source lines 332-337): the arguments, in
declaration order, whose resolved flags mark them as numpy/scipy arrays. -/
def array_arguments (f : NpeFunction) : List NpeArgument :=
  (f.argument_names.filterMap (fun n => dict_get f.arguments n)).filter
    NpeArgument.is_numpy_prop

/-- The `arguments` property (source lines 322-330): metadata in declaration
order. -/
def arguments_in_order (f : NpeFunction) : List NpeArgument :=
  f.argument_names.filterMap (fun n => dict_get f.arguments n)

/-! ## Tokenizer

Modelled from the spec: the source's `tokenize_npe_line` (lines 89-148)
drives an EXTERNAL C-preprocessor process over a generated variadic macro to
split a statement into its arguments; the spec (§4.1, §5, §9) places that
external process out of scope and specifies an equivalent in-process
depth-tracking scanner with the same observable contract: given
`STMT(arg0, ..., argN)` (after the surrounding whitespace is stripped),
return the ordered, whitespace-trimmed argument strings, treating nested
parentheses and double-quoted text as part of an argument; fail on a
statement that does not start with `STMT(`, on an unterminated statement, on
trailing junk after the closing parenthesis, and on more than
`max_iters = 64` arguments. -/

/-- Modelled from the spec: depth-tracking scan of the character list after
the opening parenthesis.  `cur` is the current argument (reversed),
`acc` the finished arguments (in order). -/
def tokenize_scan (line_number : Nat) :
    List Char → Nat → Bool → List Char → List String → Except NpeError (List String)
  | [], _, _, _, _ => .error (.tokenizationError line_number)
  | c :: cs, depth, inQuote, cur, acc =>
    if inQuote then
      tokenize_scan line_number cs depth (c ≠ '"') (c :: cur) acc
    else if c = '"' then
      tokenize_scan line_number cs depth true (c :: cur) acc
    else if c = '(' then
      tokenize_scan line_number cs (depth + 1) inQuote (c :: cur) acc
    else if c = ')' then
      match depth with
      | 0 =>
        if (py_lstrip_chars cs) ≠ [] then
          .error (.tokenizationExtraTokens line_number)
        else
          let tokens := (acc ++ [cur.reverse.asString]).map
            (fun s => py_strip s)
          if tokens.length > 64 then .error (.tokenizationMaxDepth line_number)
          else .ok tokens
      | d + 1 => tokenize_scan line_number cs d inQuote (c :: cur) acc
    else if c = ',' ∧ depth = 0 then
      tokenize_scan line_number cs depth inQuote [] (acc ++ [cur.reverse.asString])
    else
      tokenize_scan line_number cs depth inQuote (c :: cur) acc

/-- Modelled from the spec: the tokenizer contract of §4.1 replacing the
external-process `tokenize_npe_line` of source lines 89-148 (see the section
comment above). -/
def tokenize_npe_line (stmt_token : String) (line : String) (line_number : Nat) :
    Except NpeError (List String) :=
  let s := py_strip line
  if ¬ py_startswith s stmt_token then .error (.tokenizationError line_number)
  else
    let s1 := py_strip (py_drop s (py_len stmt_token))
    if ¬ py_startswith s1 "(" then .error (.tokenizationError line_number)
    else tokenize_scan line_number (py_drop s1 1).data 0 false [] []

/-! ## Token / statement consumption -/

/-- `consume_token` (source lines 189-205). -/
def consume_token (line tok : String) (line_number : Nat)
    (case_sensitive : Bool := true) : Except NpeError String :=
  let check_line := if case_sensitive then line else py_lower line
  let check_token := if case_sensitive then tok else py_lower tok
  if ¬ py_startswith check_line check_token then
    .error (.missingToken tok line_number)
  else .ok (py_drop line (py_len tok))

/-- `consume_eol` (source lines 208-218). -/
def consume_eol (line : String) (line_number : Nat) : Except NpeError String :=
  if py_len (py_strip line) ≠ 0 then .error (.expectedEol line_number)
  else .ok (py_strip line)

/-- The `throw=False` use of `consume_call_statement` (source lines 221-238):
does the stripped line start with `token` followed (after whitespace) by
`(`?  On success the source returns the non-empty remainder string (truthy);
on failure it returns `False`. -/
def statement_guard (token line : String) : Bool :=
  let l1 := py_strip line
  py_startswith l1 token &&
    py_startswith (py_strip (py_drop l1 (py_len token))) "("

/-- `_parse_begin_code_statement` / `_parse_end_code_statement`
(source lines 496-508): fully parse `TOKEN ( )` with nothing else on the
line; the statement name itself is matched case-insensitively. -/
def parse_code_fence_statement (token line : String) (line_number : Nat) :
    Except NpeError Unit := do
  let l1 ← consume_token (py_strip line) token line_number false
  let l2 ← consume_token (py_strip l1) "(" line_number
  let l3 ← consume_token (py_strip l2) ")" line_number
  let _ ← consume_eol (py_strip l3) line_number
  pure ()

/-! ## Argument statements -/

/-- `_parse_matches_statement` (source lines 371-386): extract the name
inside `npe_matches(...)`; the `npe_matches` token is consumed
case-insensitively here (its caller's `startswith` gate at line 433 is
case-sensitive). -/
def parse_matches_statement (tok : String) (line_number : Nat) :
    Except NpeError String := do
  let l1 ← consume_token (py_strip tok) "npe_matches" line_number false
  let l2 ← consume_token (py_strip l1) "(" line_number
  let l3 := py_strip (py_drop (py_strip l1) 1)
  if ¬ py_endswith l3 ")" then .error (.missingMatchesRParen line_number)
  else
    let _ := l2
    .ok (py_drop_last l3)

/-- The body of `_parse_arg_statement` (source lines 368-459) after
`tokenize_npe_line` has produced the token list: resolve the tokens into the
function state.  `tokens` is the tokenizer output (`tokens[0]` the argument
name); `is_default` selects `npe_default_arg`.  `validate_identifier_name`
of the source (lines 151-158) is a stub that does nothing and is elided. -/
def parse_arg_tokens (st : NpeFunction) (tokens : List String)
    (line_number : Nat) ( is_default : Bool) : Except NpeError NpeFunction := do
  match tokens with
  | [] => .error .indexError
  | var_name :: rest =>
    let stmt_token := if is_default then "npe_default_arg" else "npe_arg"
    -- var_value = var_types.pop() if is_default else None
    let (var_types, var_value) ←
      if is_default then
        match rest.getLast? with
        | none => .error NpeError.indexError
        | some v => pure (rest.dropLast, some v)
      else pure (rest, (none : Option String))
    let var_meta : NpeArgument :=
      { name := var_name, is_matches := false, name_or_type := var_types,
        line_number := line_number, default_value := var_value }
    if var_types.length = 0 then
      .error (.noTypeArguments stmt_token var_name)
    else if var_types.length > 1 ∨
        (var_types.length = 1 ∧ is_numpy_type (var_types.headD "")) then
      -- numpy/scipy array binding (source lines 408-429)
      match var_types.find? (fun t => !is_numpy_type t) with
      | some t => .error (.invalidType t stmt_token line_number)
      | none =>
        match dict_get st.argument_name_to_group var_name with
        | some group_id =>
          -- a matches() was seen before this statement (source lines 417-422)
          match py_get st.input_type_groups group_id with
          | none => .error .indexError
          | some g =>
            if g.types.length ≠ 0 then .error .assertionError
            else
              let g' : NpeArgumentGroup :=
                { g with types := var_types, arguments := g.arguments ++ [var_meta] }
              match py_set st.input_type_groups group_id g' with
              | none => .error .indexError
              | some groups' =>
                .ok { st with
                  input_type_groups := groups',
                  argument_names := st.argument_names ++ [var_name],
                  arguments := dict_set st.arguments var_name var_meta }
        | none =>
          -- first time this group is seen (source lines 423-429)
          let groups' := st.input_type_groups ++
            [{ arguments := [], types := var_types }]
          let group_id : Int := (groups'.length : Int) - 1
          match py_set groups' group_id { arguments := [var_meta], types := var_types } with
          | none => .error .indexError
          | some groups'' =>
            .ok { st with
              input_type_groups := groups'',
              argument_name_to_group :=
                dict_set st.argument_name_to_group var_name group_id,
              argument_names := st.argument_names ++ [var_name],
              arguments := dict_set st.arguments var_name var_meta }
    else
      -- exactly one non-numpy token (source lines 430-453)
      if py_startswith (var_types.headD "") "npe_matches" then
        let var_meta := { var_meta with is_matches := true }
        let matches_name ← parse_matches_statement (var_types.headD "") line_number
        match dict_get st.argument_name_to_group matches_name with
        | some group_id =>
          -- join the existing group (source lines 439-442)
          match py_modify st.input_type_groups group_id
              (fun g => { g with arguments := g.arguments ++ [var_meta] }) with
          | none => .error .indexError
          | some groups' =>
            .ok { st with
              input_type_groups := groups',
              argument_name_to_group :=
                dict_set st.argument_name_to_group var_name group_id,
              argument_names := st.argument_names ++ [var_name],
              arguments := dict_set st.arguments var_name var_meta }
        | none =>
          -- source lines 443-450: NOTE the source computes
          -- `group_id = len(self._input_type_groups) - 1` BEFORE appending
          -- the new group, so the recorded index points one below the group
          -- it creates (and is -1 when no group exists yet).
          let group_id : Int := (st.input_type_groups.length : Int) - 1
          let var_meta := { var_meta with matches_name := matches_name }
          .ok { st with
            input_type_groups := st.input_type_groups ++
              [{ arguments := [var_meta], types := [] }],
            argument_name_to_group :=
              dict_set (dict_set st.argument_name_to_group var_name group_id)
                matches_name group_id,
            argument_names := st.argument_names ++ [var_name],
            arguments := dict_set st.arguments var_name var_meta }
      else
        -- a plain scalar type: no group (source lines 451-453)
        .ok { st with
          argument_names := st.argument_names ++ [var_name],
          arguments := dict_set st.arguments var_name var_meta }

/-- `_parse_arg_statement` from the raw line (source line 390 tokenizes the
stripped line, then the token resolution above runs). -/
def parse_arg_statement (st : NpeFunction) (line : String) (line_number : Nat)
    ( is_default : Bool) : Except NpeError NpeFunction := do
  let stmt_token := if is_default then "npe_default_arg" else "npe_arg"
  let tokens ← tokenize_npe_line stmt_token (py_strip line) line_number
  parse_arg_tokens st tokens line_number is_default

/-! ## Structural parser: the three phases of `_parse` -/

/-- `_parse_npe_function_statement` (source lines 483-494).  With more than
one token the source formats `tokens[1, :]` into the message — indexing a
list with a tuple, an unhandled `TypeError`. -/
def parse_npe_function_statement (line : String) (line_number : Nat) :
    Except NpeError String := do
  let tokens ← tokenize_npe_line "npe_function" line line_number
  if tokens.length > 1 then .error .typeError
  else .ok (tokens.headD "")

/-- `_parse_doc_statement` (source lines 461-478).  `skip` is the caller's
`parsing_doc` flag; when it is `False` the statement returns immediately. -/
def parse_doc_statement (fn : NpeFunction) (doc_lines : String) (skip : Bool)
    (line_number : Nat) : Except NpeError NpeFunction := do
  if ¬ skip then .ok fn
  else
    let tokens ← tokenize_npe_line "npe_doc" doc_lines line_number
    if tokens.length = 0 then .error (.docNoString line_number)
    else if tokens.length > 1 then .error (.docExtraTokens line_number)
    else .ok { fn with docstr := tokens.headD "" }

/-- Phase 1 of `_parse` (source lines 510-542): scan for the
`npe_function` statement, accumulating every unrecognized non-blank line
into the preamble, and rejecting any other recognized statement.  Returns
the binding name, the preamble lines, and the unconsumed lines. -/
def parse_phase1 : List String → List String →
    Except NpeError (String × List String × List String)
  | [], _ => .error .invalidBindingNoFunction
  | line :: rest, preamble =>
    if py_len (py_strip line) = 0 then parse_phase1 rest preamble
    else if statement_guard "npe_arg" line then
      .error (.statementBeforeFunction "npe_arg" 1)
    else if statement_guard "npe_default_arg" line then
      .error (.statementBeforeFunction "npe_default_arg" 1)
    else if statement_guard "npe_begin_code" line then
      .error (.statementBeforeFunction "npe_begin_code" 1)
    else if statement_guard "npe_end_code" line then
      .error (.statementBeforeFunction "npe_end_code" 1)
    else if statement_guard "npe_dtype" line then
      .error (.statementBeforeFunction "npe_dtype" 1)
    else if statement_guard "npe_doc" line then
      .error (.statementBeforeFunction "npe_doc" 1)
    else if statement_guard "npe_function" line then
      match parse_npe_function_statement line 1 with
      | .error e => .error e
      | .ok name => .ok (name, preamble, rest)
    else parse_phase1 rest (preamble ++ [line])

/-- The state threaded through phase 2 (the `parsing_doc` / `doc_lines`
locals of `_parse`, source lines 548-549, plus the binding). -/
structure Phase2State where
  fn : NpeFunction
  parsing_doc : Bool
  doc_lines : String
deriving Repr, DecidableEq

/-- Phase 2 of `_parse` (source lines 546-603): argument and documentation
statements until `npe_begin_code()`.  Returns the binding populated so far
and the unconsumed lines (the body).  Branch order follows the source:
`npe_arg`, `npe_default_arg`, `npe_doc`, `npe_begin_code`, then doc
accumulation, then blank, then comment, else an error. -/
def parse_phase2 : List String → Phase2State →
    Except NpeError (NpeFunction × List String)
  | [], _ => .error .noBeginCode
  | line :: rest, st =>
    if statement_guard "npe_arg" line then
      match parse_arg_statement st.fn line 1 false with
      | .error e => .error e
      | .ok fn1 =>
        match parse_doc_statement fn1 st.doc_lines st.parsing_doc 1 with
        | .error e => .error e
        | .ok fn2 => parse_phase2 rest { st with fn := fn2, parsing_doc := false }
    else if statement_guard "npe_default_arg" line then
      match parse_arg_statement st.fn line 1 true with
      | .error e => .error e
      | .ok fn1 =>
        match parse_doc_statement fn1 st.doc_lines st.parsing_doc 1 with
        | .error e => .error e
        | .ok fn2 => parse_phase2 rest { st with fn := fn2, parsing_doc := false }
    else if statement_guard "npe_doc" line then
      if st.fn.docstr ≠ "" then .error (.multipleDocStatements 1)
      else parse_phase2 rest
        { st with doc_lines := st.doc_lines ++ line ++ "\n", parsing_doc := true }
    else if statement_guard "npe_begin_code" line then
      match parse_code_fence_statement "npe_begin_code" line 1 with
      | .error e => .error e
      | .ok _ =>
        match parse_doc_statement st.fn st.doc_lines st.parsing_doc 1 with
        | .error e => .error e
        | .ok fn1 => .ok (fn1, rest)
    else if st.parsing_doc then
      parse_phase2 rest { st with doc_lines := st.doc_lines ++ line ++ "\n" }
    else if py_len (py_strip line) = 0 then parse_phase2 rest st
    else if py_startswith (py_lower (py_strip line)) "//" then
      parse_phase2 rest st
    else .error (.unexpectedTokensAtLine 1)

/-- The `throw=False` guard for `npe_end_code` used by phase 3
(source line 607). -/
def end_code_guard (line : String) : Bool := statement_guard "npe_end_code" line

/-- The loop of phase 3 of `_parse` (source lines 605-614), threading the
captured body lines and the `reached_end_token` flag.  Note that a line
passing the `npe_end_code` guard is (re-)parsed as an end statement even
when the end token was already reached. -/
def parse_body_loop : List String → List String → Bool →
    Except NpeError (List String × Bool)
  | [], src, reached => .ok (src, reached)
  | line :: rest, src, reached =>
    if end_code_guard line then
      match parse_code_fence_statement "npe_end_code" line 1 with
      | .error e => .error e
      | .ok _ => parse_body_loop rest src true
    else if ¬ reached then parse_body_loop rest (src ++ [line]) reached
    else if py_len (py_strip line) ≠ 0 then .error (.expectedEndOfFile 1)
    else parse_body_loop rest src reached

/-- Phase 3 of `_parse` (source lines 605-617): capture the body until
`npe_end_code()`; end-of-input before it is an error. -/
def parse_body (lines : List String) : Except NpeError (List String) :=
  match parse_body_loop lines [] false with
  | .error e => .error e
  | .ok (_, false) => .error .unexpectedEndOfFile
  | .ok (src, true) => .ok src

/-! ## Semantic analysis: `_validate` -/

/-- First loop of `_validate` (source lines 620-632): sparse/dense
homogeneity of each argument's token list and flag assignment. -/
def validate_loop1 (st : NpeFunction) : List String → Except NpeError NpeFunction
  | [] => .ok st
  | name :: rest =>
    match dict_get st.arguments name with
    | none => .error (.keyError name)
    | some arg =>
      match arg.name_or_type with
      | [] => .error .indexError
      | t0 :: _ =>
        let sp := is_sparse_type t0
        let de := is_dense_type t0
        match arg.name_or_type.find?
            (fun t => (is_sparse_type t != sp) || (is_dense_type t != de)) with
        | some _ => .error (.semanticMixedSparseDense arg.name arg.line_number)
        | none =>
          let arg' := { arg with is_sparse := sp, is_dense := de }
          validate_loop1 { st with arguments := dict_set st.arguments name arg' } rest

/-- Second loop of `_validate` (source lines 634-643): every `matches`
argument's group must have been filled with candidate types.  The group is
fetched through the recorded (possibly negative) index with Python's
negative-index semantics. -/
def validate_loop2 (st : NpeFunction) : List String → Except NpeError NpeFunction
  | [] => .ok st
  | name :: rest =>
    match dict_get st.arguments name with
    | none => .error (.keyError name)
    | some arg =>
      if arg.is_matches then
        match dict_get st.argument_name_to_group arg.name with
        | none => .error (.keyError arg.name)
        | some group_idx =>
          match py_get st.input_type_groups group_idx with
          | none => .error .indexError
          | some g =>
            match arg.name_or_type with
            | [] => .error .indexError
            | mn :: _ =>
              if g.types.length = 0 then
                .error (.semanticUnmatched arg.name arg.line_number mn)
              else
                let arg' := { arg with
                  is_sparse := is_sparse_type (g.types.headD ""),
                  is_dense := is_dense_type (g.types.headD "") }
                validate_loop2
                  { st with arguments := dict_set st.arguments name arg' } rest
      else validate_loop2 st rest

/-- `_validate` (source lines 619-643). -/
def validate (st : NpeFunction) : Except NpeError NpeFunction := do
  let st1 ← validate_loop1 st st.argument_names
  validate_loop2 st1 st1.argument_names

/-- `_parse` (source lines 480-617): the three parse phases over the input
lines, producing the binding before validation. -/
def parse_binding (lines : List String) : Except NpeError NpeFunction := do
  let (name, preamble, rest) ← parse_phase1 lines []
  let fn0 : NpeFunction := { npe_function_init with name := name, preamble := preamble }
  let (fn1, rest2) ← parse_phase2 rest { fn := fn0, parsing_doc := false, doc_lines := "" }
  let body ← parse_body rest2
  .ok { fn1 with source_code := body }

/-- `NpeFunction.__init__` (source lines 308-320): `_parse`, then
`_validate`. -/
def npe_function_of_lines (lines : List String) : Except NpeError NpeFunction := do
  let fn ← parse_binding lines
  validate fn

/-! ## Code generator (`codegen_ast`, source lines 685-981)

Each `out_file.write(...)` of the source becomes one chunk (`String`) in an
emitted chunk list; an unhandled exception during generation stops the chunk
stream, leaving the chunks already written — exactly the partially-written
output file of the Python process. -/

/-- The chunks written so far together with the exception (if any) that
aborted the writer. -/
structure WRes where
  chunks : List String
  err : Option NpeError
deriving Repr, DecidableEq

/-- Sequencing of two writer results: the second runs only if the first did
not raise. -/
def wseq (a b : WRes) : WRes :=
  match a.err with
  | some _ => a
  | none => ⟨a.chunks ++ b.chunks, b.err⟩

/-- A failable computation of chunks, as a writer result (nothing written on
failure — used for pieces whose first write happens after all its failing
subexpressions are evaluated). -/
def wlift : Except NpeError (List String) → WRes
  | .ok cs => ⟨cs, none⟩
  | .error e => ⟨[], some e⟩

/-- `type_name_var` (source lines 703-704). -/
def type_name_var (var_name : String) : String :=
  "_NPE_PY_BINDING_" ++ var_name ++ "_type_s"

/-- `storage_order_var` (source lines 706-707). -/
def storage_order_var (var_name : String) : String :=
  "_NPE_PY_BINDING_" ++ var_name ++ "_so"

/-- `type_id_var` (source lines 709-710). -/
def type_id_var (var_name : String) : String :=
  "_NPE_PY_BINDING_" ++ var_name ++ "_t_id"

/-- `STORAGE_ORDER_SUFFIXES` (source line 692). -/
def STORAGE_ORDER_SUFFIXES : List String := ["_cm", "_rm", "_x"]

/-- `storage_order_for_suffix` (source lines 712-720); the trailing
`assert False` is an `AssertionError`. -/
def storage_order_for_suffix (suffix : String) : Except NpeError String :=
  if suffix = "_cm" then .ok "npe::detail::StorageOrder::ColMajor"
  else if suffix = "_rm" then .ok "npe::detail::StorageOrder::RowMajor"
  else if suffix = "_x" then .ok "npe::detail::StorageOrder::NoOrder"
  else .error .assertionError

/-- `aligned_enum_for_suffix` (source lines 722-728). -/
def aligned_enum_for_suffix (suffix : String) : Except NpeError String :=
  if suffix = "_cm" ∨ suffix = "_rm" then .ok "npe::detail::Alignment::Aligned"
  else if suffix = "_x" then .ok "npe::detail::Alignment::Unaligned"
  else .error .assertionError

/-- `type_char_for_numpy_type` (source lines 730-731); a missing catalog key
is a `KeyError`. -/
def type_char_for_numpy_type (np_type : String) : Except NpeError String :=
  match numpy_type_info np_type with
  | none => .error (.keyError np_type)
  | some info => .ok ("npe::detail::NumpyTypeChar::char_" ++ info.2.1)

/-- `write_flags_getter` (source lines 733-741), as the single chunk it
writes. -/
def write_flags_getter (var_name : String) : String :=
  "const npe::detail::StorageOrder " ++ storage_order_var var_name ++ " = (" ++
    var_name ++ ".flags() & NPY_ARRAY_F_CONTIGUOUS) ? npe::detail::ColMajor : (" ++
    var_name ++ ".flags() & NPY_ARRAY_C_CONTIGUOUS ? npe::detail::RowMajor : npe::detail::NoOrder);\n"

/-- `write_type_id_getter` (source lines 743-749), as the single chunk it
writes. -/
def write_type_id_getter (var_name : String) : String :=
  "const int " ++ type_id_var var_name ++ " = npe::detail::get_type_id(npe::detail::is_sparse<decltype(" ++
    var_name ++ ")>::value, " ++ type_name_var var_name ++ ", " ++
    storage_order_var var_name ++ ");\n"

/-- `write_code_function_definition` (source lines 894-915). -/
def write_code_function_definition (f : NpeFunction) : List String :=
  let args := arguments_in_order f
  let template_str :=
    "template <" ++ String.join (args.map (fun a =>
      if a.is_numpy_prop then
        "typename npe_Map_" ++ a.name ++ ",typename npe_Matrix_" ++ a.name ++
          ",typename npe_Scalar_" ++ a.name ++ ","
      else ""))
  let template_str := py_drop_last template_str ++ ">\n"
  let argument_str :=
    String.join (args.map (fun a =>
      if a.is_numpy_prop then "npe_Map_" ++ a.name ++ " " ++ a.name ++ ","
      else (a.name_or_type.headD "") ++ " " ++ a.name ++ ","))
  let argument_str := py_drop_last argument_str ++ ") \x7b\n"
  (if has_array_arguments f then [template_str] else []) ++
    ["static auto callit(", argument_str, py_join_lines f.source_code, "\x7d\n"]

/-- The per-argument lambda-signature loop of `write_declaration`
(source lines 768-783); a scalar argument with more than one type token
fails the `assert len(arg.name_or_type) == 1`. -/
def write_signature_loop (num_args : Nat) : List NpeArgument → Nat → WRes
  | [], _ => ⟨[], none⟩
  | a :: rest, i =>
    let entry : Except NpeError (List String) :=
      if a.is_sparse then .ok ["npe::sparse_array ", a.name]
      else if a.is_dense then .ok ["pybind11::array ", a.name]
      else if a.name_or_type.length ≠ 1 then .error .assertionError
      else .ok [(a.name_or_type.headD "") ++ " ", a.name]
    match entry with
    | .error e => ⟨[], some e⟩
    | .ok cs =>
      let next_token := if i < num_args - 1 then ", " else ") \x7b\n"
      wseq ⟨cs ++ [next_token], none⟩ (write_signature_loop num_args rest (i + 1))

/-- The per-argument runtime-probing chunks of `write_declaration`
(source lines 786-801): dtype tag, shape normalization, layout flags,
type id. -/
def write_probing_chunks (a : NpeArgument) : List String :=
  let n := a.name
  [ "const char " ++ type_name_var n ++ " = " ++ n ++ ".dtype().type();\n",
    "ssize_t " ++ n ++ "_shape_0 = 0;\n",
    "ssize_t " ++ n ++ "_shape_1 = 0;\n",
    "if (" ++ n ++ ".ndim() == 1) \x7b\n",
    n ++ "_shape_0 = " ++ n ++ ".shape()[0];\n",
    n ++ "_shape_1 = " ++ n ++ ".shape()[0] == 0 ? 0 : 1;\n",
    "\x7d else if (" ++ n ++ ".ndim() == 2) \x7b\n",
    n ++ "_shape_0 = " ++ n ++ ".shape()[0];\n",
    n ++ "_shape_1 = " ++ n ++ ".shape()[1];\n",
    "\x7d else if (" ++ n ++ ".ndim() > 2) \x7b\n",
    "  throw std::invalid_argument(\"Argument " ++ n ++
      " has invalid number of dimensions. Must be 1 or 2.\");\n",
    "\x7d\n",
    write_flags_getter n,
    write_type_id_getter n ]

/-- The inner `!=` chain of a group's type guard (source lines 811-815):
one clause per candidate type, against the representative's type tag. -/
def group_guard_core (head_name : String) : List String → Nat → Nat →
    Except NpeError String
  | [], _, _ => .ok ""
  | t :: ts, i, total => do
    let ch ← type_char_for_numpy_type t
    let next_token := if i < total - 1 then " && " else ") \x7b\n"
    let more ← group_guard_core head_name ts (i + 1) total
    .ok (type_name_var head_name ++ " != " ++ ch ++ next_token ++ more)

/-- One iteration of the group-guard loop of `write_declaration`
(source lines 805-838) as the chunks it writes.  Evaluation order of the
source's failing subexpressions is preserved: the pretty-type list is built
first (`KeyError`), then the guard chain (needing the representative
member), then `pretty_group_types[0]` (`IndexError` when the group's
candidate list is empty).  For a group with several members the source
rebuilds `out_str` on every iteration of its inner loop but writes it only
ONCE after the loop, so only the LAST member's match-guard is emitted. -/
def write_one_group_guard (g : NpeArgumentGroup) : Except NpeError (List String) := do
  let names := g.arguments.map NpeArgument.name
  let pretty ← g.types.mapM (fun t =>
    match numpy_type_info t with
    | none => Except.error (NpeError.keyError t)
    | some info => Except.ok info.2.2)
  let head_name_opt := names.head?
  let core ←
    match g.types, head_name_opt with
    | [], _ => pure ""
    | _ :: _, none => Except.error NpeError.indexError
    | _ :: _, some hn => group_guard_core hn g.types 0 g.types.length
  let p0 ← match pretty.head? with
    | none => Except.error NpeError.indexError
    | some p => pure p
  let n0 ← match head_name_opt with
    | none => Except.error NpeError.indexError
    | some n => pure n
  let chunk1 := "if (" ++ core ++
    "throw std::invalid_argument(\"Invalid type (" ++ p0 ++ ") for argument \x27" ++
    n0 ++ "\x27. Expected one of " ++ py_str_list pretty ++ ".\");\n" ++ "\x7d\n"
  if names.length = 1 then .ok [chunk1]
  else
    match names.getLast? with
    | none => .error .assertionError
    | some nl =>
      let chunk2 := "if (" ++ type_id_var n0 ++ " != " ++ type_id_var nl ++
        ") \x7b\n" ++
        "std::string err_msg = std::string(\"Invalid type (\") + npe::detail::type_to_str(" ++
        type_name_var nl ++ ") + std::string(\") for argument \x27" ++ nl ++
        "\x27. Expected it to match argument \x27" ++ n0 ++
        "\x27 which is of type \") + npe::detail::type_to_str(" ++ type_name_var n0 ++
        ") + std::string(\".\");\n" ++
        "throw std::invalid_argument(err_msg);\n" ++ "\x7d\n"
      .ok [chunk1, chunk2]

/-- The group-guard loop over all groups (source lines 805-838). -/
def write_group_guards : List NpeArgumentGroup → WRes
  | [] => ⟨[], none⟩
  | g :: rest => wseq (wlift (write_one_group_guard g)) (write_group_guards rest)

/-- `write_declaration` (source lines 751-838). -/
def write_declaration (f : NpeFunction) (input_file_name : String) : WRes :=
  let func_name := "pybind_output_fun_" ++ py_replace_dot (py_basename input_file_name)
  wseq ⟨[py_join_lines f.preamble ++ "\n"], none⟩ <|
  wseq ⟨write_code_function_definition f, none⟩ <|
  wseq ⟨["void " ++ func_name ++ "(pybind11::module& m) \x7b\n",
         "m.def(", "\"" ++ f.name ++ "\"", ", []("], none⟩ <|
  wseq (write_signature_loop f.argument_names.length (arguments_in_order f) 0) <|
  wseq ⟨(array_arguments f).flatMap write_probing_chunks, none⟩ <|
  write_group_guards f.input_type_groups

/-! ## `write_code_block` and `write_body` -/

/-- Pair each list element with its position. -/
def with_indices {α : Type} : Nat → List α → List (Nat × α)
  | _, [] => []
  | i, x :: xs => (i, x) :: with_indices (i + 1) xs

/-- The data of one `typedef` block emitted by `write_code_block` for one
member argument of one group: the branch's fixed scalar type and storage
order for that group, applied to that argument (source lines 842-868). -/
structure CodeBinding where
  group_id : Nat
  arg_name : String
  cpp_type : String
  storage_order : String
  aligned : String
  sparse : Bool
deriving Repr, DecidableEq

/-- The inner loop of `write_code_block` over one group's member arguments
(source lines 845-868): every member receives the SAME
(`cpp_type`, `storage_order`) pair, computed from the combination's choice
for the group. -/
def group_bindings (gid : Nat) (tp ts : String) :
    List NpeArgument → Except NpeError (List CodeBinding)
  | [] => .ok []
  | a :: rest =>
    match numpy_type_info tp with
    | none => .error (.keyError tp)
    | some info =>
      match storage_order_for_suffix ts with
      | .error e => .error e
      | .ok so =>
        match aligned_enum_for_suffix ts with
        | .error e => .error e
        | .ok al =>
          match group_bindings gid tp ts rest with
          | .error e => .error e
          | .ok more =>
            .ok (⟨gid, a.name, info.1, so, al, is_sparse_type tp⟩ :: more)

/-- The outer loop of `write_code_block` over `range(len(combo))`
(source line 842), producing the typedef data for every member of every
group. -/
def code_block_bindings_go (groups : List NpeArgumentGroup) :
    List (Nat × String × String) → Except NpeError (List CodeBinding)
  | [] => .ok []
  | (gid, tp, ts) :: rest =>
    match py_get groups (Int.ofNat gid) with
    | none => .error .indexError
    | some g =>
      match group_bindings gid tp ts g.arguments with
      | .error e => .error e
      | .ok bs =>
        match code_block_bindings_go groups rest with
        | .error e => .error e
        | .ok more => .ok (bs ++ more)

/-- The typedef data of one dispatch branch: the nested loops of
`write_code_block` (source lines 842-868) stripped of their literal
syntax. -/
def code_block_bindings (f : NpeFunction) (combo : List (String × String)) :
    Except NpeError (List CodeBinding) :=
  code_block_bindings_go f.input_type_groups (with_indices 0 combo)

/-- The literal typedef chunks of one member binding (source lines
850-868). -/
def render_binding (b : CodeBinding) : List String :=
  ["typedef " ++ b.cpp_type ++ " Scalar_" ++ b.arg_name ++ ";\n"] ++
  (if b.sparse then
    [ "typedef Eigen::SparseMatrix<" ++ b.cpp_type ++ ", " ++ b.storage_order ++
        ", int> Matrix_" ++ b.arg_name ++ ";\n",
      "#if EIGEN_WORLD_VERSION == 3 && EIGEN_MAJOR_VERSION <= 2\n",
      "typedef Eigen::MappedSparseMatrix<" ++ b.cpp_type ++ ", " ++
        b.storage_order ++ ", int> Map_" ++ b.arg_name ++ ";\n",
      "#elif (EIGEN_WORLD_VERSION == 3 && EIGEN_MAJOR_VERSION > 2) || (EIGEN_WORLD_VERSION > 3)\n",
      "typedef Eigen::Map<Matrix_" ++ b.arg_name ++ "> Map_" ++ b.arg_name ++ ";\n",
      "#endif\n" ]
  else
    [ "typedef Eigen::Matrix<" ++ b.cpp_type ++ ", Eigen::Dynamic, Eigen::Dynamic, " ++
        b.storage_order ++ "> Matrix_" ++ b.arg_name ++ ";\n",
      "typedef Eigen::Map<Eigen::Matrix<" ++ b.cpp_type ++
        ", Eigen::Dynamic, Eigen::Dynamic, " ++ b.storage_order ++ ">, " ++
        b.aligned ++ "> Map_" ++ b.arg_name ++ ";\n" ])

/-- The `return callit...` invocation string of `write_code_block`
(source lines 870-890). -/
def code_block_call_str (f : NpeFunction) : String :=
  let args := arguments_in_order f
  let template_str := "<" ++ String.join (args.map (fun a =>
    if a.is_numpy_prop then
      "Map_" ++ a.name ++ ", Matrix_" ++ a.name ++ ", Scalar_" ++ a.name ++ ","
    else ""))
  let template_str := py_drop_last template_str ++ ">("
  let call_str := "return callit" ++
    (if has_array_arguments f then template_str else "(")
  let call_str := call_str ++ String.join (args.map (fun a =>
    if a.is_numpy_prop then
      if ¬ a.is_sparse then
        "Map_" ++ a.name ++ "((Scalar_" ++ a.name ++ "*) " ++ a.name ++
          ".data(), " ++ a.name ++ "_shape_0, " ++ a.name ++ "_shape_1),"
      else a.name ++ ".as_eigen<Matrix_" ++ a.name ++ ">(),"
    else a.name ++ ","))
  py_drop_last call_str ++ ");\n"

/-- `write_code_block` (source lines 840-892): the chunks of one dispatch
branch's body. -/
def write_code_block (f : NpeFunction) (combo : List (String × String)) :
    Except NpeError (List String) :=
  match code_block_bindings f combo with
  | .error e => .error e
  | .ok bs =>
    .ok (["\x7b\n"] ++ bs.flatMap render_binding ++ [code_block_call_str f, "\x7d\n"])

/-- `itertools.product(group.types, STORAGE_ORDER_SUFFIXES)`
(source line 918). -/
def expanded_type_group (g : NpeArgumentGroup) : List (String × String) :=
  g.types.flatMap (fun t => STORAGE_ORDER_SUFFIXES.map (fun s => (t, s)))

/-- `itertools.product(*lists)`: the Cartesian product of a list of lists,
leftmost factor varying slowest. -/
def list_product {α : Type} : List (List α) → List (List α)
  | [] => [[]]
  | l :: ls => l.flatMap (fun x => (list_product ls).map (fun xs => x :: xs))

/-- `group_combos = itertools.product(*expanded_type_groups)`
(source lines 918-919). -/
def group_combos (f : NpeFunction) : List (List (String × String)) :=
  list_product (f.input_type_groups.map expanded_type_group)

/-- The skip condition of `write_body`'s loop (source lines 929-934): a
combination is dropped as soon as some group pairs a sparse candidate type
with the unordered (`_x`) storage suffix. -/
def combo_skip (combo : List (String × String)) : Bool :=
  combo.any (fun p => is_sparse_type p.1 && p.2 == "_x")

/-- The dispatch combinations `write_body` actually emits: the product
combinations that survive the skip condition. -/
def emitted_combos (f : NpeFunction) : List (List (String × String)) :=
  (group_combos f).filter (fun c => !combo_skip c)

/-- The `&&`-chain of one branch guard (source lines 929-940), over the
indexed combination entries: each group's representative member's detected
type id is compared against the combination's choice. -/
def branch_guard_core (groups : List NpeArgumentGroup) (total : Nat) :
    List (Nat × String × String) → Except NpeError String
  | [] => .ok ""
  | (gid, tp, ts) :: rest =>
    match py_get groups (Int.ofNat gid) with
    | none => .error .indexError
    | some g =>
      match g.arguments.head? with
      | none => .error .indexError
      | some repr_var =>
        let piece := type_id_var repr_var.name ++ " == npe::detail::TypeId::" ++
          (tp ++ ts) ++ (if gid < total - 1 then " && " else ")")
        match branch_guard_core groups total rest with
        | .error e => .error e
        | .ok more => .ok (piece ++ more)

/-- One branch's full guard string (source lines 925-945): `if ` for the
first emitted branch, ` else if ` afterwards. -/
def branch_guard_str (f : NpeFunction) (combo : List (String × String))
    (branch_count : Nat) : Except NpeError String :=
  match branch_guard_core f.input_type_groups combo.length (with_indices 0 combo) with
  | .error e => .error e
  | .ok core =>
    .ok ((if branch_count = 0 then "if " else " else if ") ++ "(" ++ core ++ " \x7b\n")

/-- The result of `write_body`: emitted chunks, the source's `branch_count`
counter, and the exception (if any) that aborted emission. -/
structure BodyRes where
  chunks : List String
  branch_count : Nat
  err : Option NpeError
deriving Repr, DecidableEq

/-- The `for combo in group_combos` loop of `write_body`
(source lines 924-949). -/
def write_body_go (f : NpeFunction) :
    List (List (String × String)) → Nat → BodyRes
  | [], n => ⟨[], n, none⟩
  | combo :: rest, n =>
    if combo_skip combo then write_body_go f rest n
    else
      match branch_guard_str f combo n with
      | .error e => ⟨[], n, some e⟩
      | .ok guard =>
        match write_code_block f combo with
        | .error e => ⟨[guard], n, some e⟩
        | .ok blk =>
          let r := write_body_go f rest (n + 1)
          ⟨guard :: (blk ++ ["\x7d"] ++ r.chunks), r.branch_count, r.err⟩

/-- `write_body` (source lines 917-963). -/
def write_body (f : NpeFunction) : BodyRes :=
  if has_array_arguments f then
    let r := write_body_go f (group_combos f) 0
    match r.err with
    | some _ => r
    | none =>
      ⟨r.chunks ++
        [" else \x7b\n",
         "throw std::invalid_argument(\"This should never happen but clearly it did. File a github issue at https://github.com/fwilliams/numpyeigen\");\n",
         "\x7d\n", "\n", "\x7d"],
       r.branch_count, none⟩
  else
    if (group_combos f).length = 1 then
      ⟨["\x7b\n", py_join_lines f.source_code ++ "\n", "\x7d\n", "\n", "\x7d"], 0, none⟩
    else ⟨[], 0, some .assertionError⟩

/-- `write_end` (source lines 965-977): docstring, per-argument
registration entries with defaults, and the closing braces. -/
def write_end (f : NpeFunction) : List String :=
  let arg_list := String.join ((arguments_in_order f).map (fun a =>
    ", pybind11::arg(\"" ++ a.name ++ "\")" ++
      (match a.default_value with
       | some v => if v ≠ "" then "=" ++ v else ""
       | none => "")))
  (if py_len f.docstr > 0 then [", " ++ f.docstr] else []) ++
    [arg_list, ");\n", "\x7d\n", "\n"]

/-- `codegen_ast` (source lines 685-981): declaration, body, registration
tail, in order. -/
def codegen_ast (f : NpeFunction) (input_file_name : String) : WRes :=
  wseq (write_declaration f input_file_name) <|
  wseq ⟨(write_body f).chunks, (write_body f).err⟩ ⟨write_end f, none⟩

/-! ## The `__main__` driver (source lines 984-1021) -/

/-- The output file's state after a run: the chunks written to it, and
whether generation ran to completion.  The source opens the file (and writes
the two header lines) only after parsing and validation succeed, so a
parse/validation failure leaves NO file, while an unhandled exception inside
`codegen_ast` leaves a partially-written file behind. -/
structure OutFileState where
  chunks : List String
  completed : Bool
deriving Repr, DecidableEq

/-- The observable outcome of one run of the `__main__` driver. -/
structure MainResult where
  exitCode : Nat
  outFile : Option OutFileState
  errorOut : Option NpeError
deriving Repr, DecidableEq

/-- The `__main__` driver (source lines 1000-1021): parse + validate; on
`ParseError`/`SemanticError` log the message and `sys.exit(1)` with no
output file; otherwise create the output file, write the two header lines,
and run `codegen_ast` into it.  An exception escaping `codegen_ast` is not
one of the two caught classes: the process dies with a traceback (nonzero
exit) and the partially-written file remains on disk. -/
def main_compile (lines : List String) (input_file_name : String) : MainResult :=
  match npe_function_of_lines lines with
  | .error e => ⟨1, none, some e⟩
  | .ok f =>
    let header := ["#define __NPE_FOR_REAL__\n", "#include <npe.h>\n"]
    let r := codegen_ast f input_file_name
    match r.err with
    | none => ⟨0, some ⟨header ++ r.chunks, true⟩, none⟩
    | some e => ⟨1, some ⟨header ++ r.chunks, false⟩, some e⟩

/-- The module-level mutable globals of the source that survive between
pipeline invocations inside one process (`CPP_COMMAND`, `verbosity_level`,
`input_file_name`; set once in `__main__` at lines 996-998 and only READ by
the pipeline). -/
structure Globals where
  cpp_command : String
  verbosity_level : Int
  input_file_name : String
deriving Repr, DecidableEq

/-- One full pipeline run against the module globals: the pipeline reads
`input_file_name` (for the generated registration function's name) and
returns the globals it leaves behind for a subsequent run.  No pipeline
function of the source assigns to a module global, so the state passes
through unchanged. -/
def compile_run (g : Globals) (lines : List String) : MainResult × Globals :=
  (main_compile lines g.input_file_name, g)

/-! ## Decidability and instances used by the concrete evaluations -/

instance {ε α : Type} [DecidableEq ε] [DecidableEq α] : DecidableEq (Except ε α) :=
  fun a b =>
    match a, b with
    | .ok x, .ok y =>
      if h : x = y then .isTrue (by rw [h])
      else .isFalse (by intro hh; cases hh; exact h rfl)
    | .ok _, .error _ => .isFalse (by intro hh; cases hh)
    | .error _, .ok _ => .isFalse (by intro hh; cases hh)
    | .error e, .error e' =>
      if h : e = e' then .isTrue (by rw [h])
      else .isFalse (by intro hh; cases hh; exact h rfl)

instance : Inhabited NpeArgumentGroup := ⟨⟨[], []⟩⟩

/-! ## Derived quantities named by the claims -/

/-- The branch-count formula of the spec: `∏ᵢ (3·tᵢ - sᵢ)` over the
groups, where `tᵢ` is the candidate-type count and `sᵢ` the number of
sparse candidate types of group `i`. -/
def branch_count_formula (f : NpeFunction) : Nat :=
  (f.input_type_groups.map
    (fun g => 3 * g.types.length - g.types.countP (fun t => is_sparse_type t))).prod

/-- Whether the run left a completed output file. -/
def out_file_completed (r : MainResult) : Option Bool :=
  r.outFile.map OutFileState.completed

/-- Whether the run left an output file with at least one chunk in it. -/
def out_file_has_chunks (r : MainResult) : Option Bool :=
  r.outFile.map (fun s => !s.chunks.isEmpty)

/-! ## General lemmas about the branch enumeration -/

/-- Counting the kept elements of a Cartesian product under a pointwise
skip condition: filtering `itertools.product(*ls)` by "no element is bad"
keeps exactly the product of the per-factor kept counts. -/
theorem filter_list_product_length {α : Type} (bad : α → Bool) :
    ∀ ls : List (List α),
      ((list_product ls).filter (fun c => !(c.any bad))).length =
        (ls.map (fun l => (l.filter (fun x => !(bad x))).length)).prod := by
  intro ls
  induction ls with
  | nil => simp [list_product]
  | cons l ls ih =>
    simp only [list_product, List.map_cons, List.prod_cons]
    induction l with
    | nil => simp
    | cons x xs ihx =>
      rw [List.flatMap_cons, List.filter_append, List.length_append, ihx]
      rw [List.filter_map ((x :: ·)) (list_product ls)]
      simp only [List.length_map, Function.comp_def, List.any_cons]
      by_cases hbx : bad x = true
      · simp [hbx]
      · have hbx' : bad x = false := by revert hbx; cases bad x <;> simp
        simp [hbx', ih]
        ring

/-- One group's kept (type, layout) pairs: each sparse candidate type loses
exactly the unordered variant, so `3·t - s` pairs survive the skip
condition. -/
theorem filter_expanded_group_length (types : List String) :
    ((types.flatMap (fun t => STORAGE_ORDER_SUFFIXES.map (fun s => (t, s)))).filter
        (fun p => !(is_sparse_type p.1 && p.2 == "_x"))).length =
      3 * types.length - types.countP (fun t => is_sparse_type t) := by
  induction types with
  | nil => simp
  | cons t ts ih =>
    rw [List.flatMap_cons, List.filter_append, List.length_append, ih]
    have hle : ts.countP (fun t => is_sparse_type t) ≤ ts.length :=
      List.countP_le_length _
    simp only [STORAGE_ORDER_SUFFIXES, List.map_cons, List.map_nil,
      List.countP_cons, List.length_cons]
    by_cases hsp : is_sparse_type t = true
    · simp [hsp]
      omega
    · have hsp' : is_sparse_type t = false := by revert hsp; cases is_sparse_type t <;> simp
      simp [hsp']
      omega

/-- When `write_body`'s loop does not raise, its `branch_count` counter ends
at the number of non-skipped combinations. -/
theorem write_body_go_count (f : NpeFunction) :
    ∀ (l : List (List (String × String))) (n : Nat),
      (write_body_go f l n).err = none →
      (write_body_go f l n).branch_count =
        n + (l.filter (fun c => !combo_skip c)).length := by
  intro l
  induction l with
  | nil => intro n _; simp [write_body_go]
  | cons combo rest ih =>
    intro n h
    by_cases hs : combo_skip combo = true
    · rw [List.filter_cons_of_neg (by simp [hs])]
      simp only [write_body_go, if_pos hs] at h ⊢
      exact ih n h
    · have hs' : combo_skip combo = false := by
        revert hs; cases combo_skip combo <;> simp
      rw [List.filter_cons_of_pos (by simp [hs'])]
      cases hbg : branch_guard_str f combo n with
      | error e =>
        exfalso
        simp [write_body_go, hs', hbg] at h
      | ok g =>
        cases hwc : write_code_block f combo with
        | error e =>
          exfalso
          simp [write_body_go, hs', hbg, hwc] at h
        | ok blk =>
          have hrec : (write_body_go f rest (n + 1)).err = none := by
            simpa [write_body_go, hs', hbg, hwc] using h
          have := ih (n + 1) hrec
          simp only [write_body_go, hs', Bool.false_eq_true, if_false, hbg, hwc]
          simp only [this, List.length_cons]
          omega

/-- In the dispatch case (`has_array_arguments` true), `write_body` reports
exactly the loop's counter and exception. -/
theorem write_body_dispatch_fields (f : NpeFunction)
    (ha : has_array_arguments f = true) :
    (write_body f).err = (write_body_go f (group_combos f) 0).err ∧
    (write_body f).branch_count = (write_body_go f (group_combos f) 0).branch_count := by
  simp only [write_body, ha, if_pos]
  cases h : (write_body_go f (group_combos f) 0).err <;> simp [h]

/-- C1: for every binding that passes validation and has at least one
NumericArray argument (and whose generation runs to completion), the code
generator's `branch_count` equals the product over all type groups of
`3·tᵢ - sᵢ` (candidate-type count times three layouts, minus one layout
per sparse candidate type), and no emitted dispatch combination pairs a
sparse candidate type with the unordered (`_x`) layout. -/
theorem c1_branch_count_law (f0 f : NpeFunction)
    (_hv : validate f0 = .ok f)
    (ha : has_array_arguments f = true)
    (he : (write_body f).err = none) :
    (write_body f).branch_count = branch_count_formula f ∧
    ∀ c ∈ emitted_combos f, ∀ p ∈ c,
      ¬(is_sparse_type p.1 = true ∧ p.2 = "_x") := by
  obtain ⟨herr, hcount⟩ := write_body_dispatch_fields f ha
  have hgo : (write_body_go f (group_combos f) 0).err = none := by rw [← herr]; exact he
  constructor
  · rw [hcount, write_body_go_count f _ 0 hgo, Nat.zero_add]
    have hpred : (fun c : List (String × String) => !combo_skip c) =
        (fun c => !(c.any (fun p => is_sparse_type p.1 && p.2 == "_x"))) := by
      funext c; rfl
    rw [hpred]
    simp only [group_combos]
    rw [filter_list_product_length]
    simp only [branch_count_formula, List.map_map, Function.comp_def]
    have hmap : ∀ g : NpeArgumentGroup,
        ((expanded_type_group g).filter
          (fun p => !(is_sparse_type p.1 && p.2 == "_x"))).length =
        3 * g.types.length - g.types.countP (fun t => is_sparse_type t) := by
      intro g
      exact filter_expanded_group_length g.types
    simp only [expanded_type_group] at hmap
    exact List.map_congr_left (fun g _ => hmap g) ▸ rfl
  · intro c hc p hp hcontra
    obtain ⟨h1, h2⟩ := hcontra
    rw [emitted_combos, List.mem_filter] at hc
    obtain ⟨-, hskip⟩ := hc
    have hskip' : combo_skip c = false := by
      revert hskip; cases combo_skip c <;> simp
    rw [combo_skip] at hskip'
    have := List.any_eq_false.1 hskip' p hp
    apply this
    simp [h1, h2]

/-- Scenario A of the spec: two dense candidate types shared by a `matches`
pair. -/
def scenarioA_lines : List String :=
  ["npe_function(foo)",
   "npe_arg(a, dense_f32, dense_f64)",
   "npe_arg(b, npe_matches(a))",
   "npe_begin_code()",
   "return 1;",
   "npe_end_code()"]

/-- Scenario A after `_parse` (before validation). -/
def scenarioA_f0 : NpeFunction :=
  match parse_binding scenarioA_lines with
  | .ok f => f
  | .error _ => npe_function_init

/-- Scenario A after `_validate`. -/
def scenarioA_f : NpeFunction :=
  match validate scenarioA_f0 with
  | .ok f => f
  | .error _ => npe_function_init

theorem c1_branch_count_law_witness :
    (write_body scenarioA_f).branch_count = branch_count_formula scenarioA_f :=
  (c1_branch_count_law scenarioA_f0 scenarioA_f rfl rfl rfl).1

theorem with_indices_mem_iff {α : Type} :
    ∀ (l : List α) (n i : Nat) (x : α),
      (i, x) ∈ with_indices n l ↔ ∃ k, l.get? k = some x ∧ i = n + k := by
  intro l
  induction l with
  | nil => intro n i x; simp [with_indices]
  | cons y ys ih =>
    intro n i x
    simp only [with_indices, List.mem_cons, ih]
    constructor
    · rintro (h | ⟨k, hk, hik⟩)
      · obtain ⟨hi, hx⟩ := Prod.mk.injEq .. ▸ h
        refine ⟨0, ?_, ?_⟩
        · simp [hx]
        · omega
      · exact ⟨k + 1, by simpa using hk, by omega⟩
    · rintro ⟨k, hk, hik⟩
      cases k with
      | zero =>
        left
        simp only [List.get?] at hk
        cases hk
        have : i = n := by omega
        rw [this]
      | succ k =>
        right
        exact ⟨k, by simpa using hk, by omega⟩

/-- Two entries of `with_indices` with the same index carry the same
element. -/
theorem with_indices_functional {α : Type} (l : List α) (n i : Nat) (x y : α)
    (hx : (i, x) ∈ with_indices n l) (hy : (i, y) ∈ with_indices n l) : x = y := by
  obtain ⟨k1, hk1, hik1⟩ := (with_indices_mem_iff l n i x).1 hx
  obtain ⟨k2, hk2, hik2⟩ := (with_indices_mem_iff l n i y).1 hy
  have hkk : k1 = k2 := by omega
  rw [hkk, hk2] at hk1
  injection hk1 with h
  exact h.symm

/-- Every binding produced for one group carries that group's id and the
scalar type / storage order / alignment computed from the branch's choice
`(tp, ts)` for the group, and belongs to one of the group's member
arguments. -/
theorem group_bindings_mem (gid : Nat) (tp ts : String) :
    ∀ (args : List NpeArgument) (bs : List CodeBinding),
      group_bindings gid tp ts args = .ok bs →
      ∀ b ∈ bs,
        b.group_id = gid ∧
        (∃ info, numpy_type_info tp = some info ∧ b.cpp_type = info.1) ∧
        storage_order_for_suffix ts = .ok b.storage_order ∧
        aligned_enum_for_suffix ts = .ok b.aligned ∧
        b.sparse = is_sparse_type tp ∧
        ∃ a ∈ args, b.arg_name = a.name := by
  intro args
  induction args with
  | nil =>
    intro bs h b hb
    simp only [group_bindings] at h
    cases h
    cases hb
  | cons a as ih =>
    intro bs h b hb
    simp only [group_bindings] at h
    cases hinfo : numpy_type_info tp with
    | none => rw [hinfo] at h; cases h
    | some info =>
      rw [hinfo] at h
      cases hso : storage_order_for_suffix ts with
      | error e => rw [hso] at h; cases h
      | ok so =>
        rw [hso] at h
        cases hal : aligned_enum_for_suffix ts with
        | error e => rw [hal] at h; cases h
        | ok al =>
          rw [hal] at h
          cases hrec : group_bindings gid tp ts as with
          | error e => rw [hrec] at h; cases h
          | ok more =>
            rw [hrec] at h
            cases h
            cases hb with
            | head =>
              exact ⟨rfl, ⟨info, rfl, rfl⟩, rfl, rfl, rfl,
                ⟨a, List.mem_cons_self a as, rfl⟩⟩
            | tail _ hb' =>
              obtain ⟨h1, h2, h3, h4, h5, a', ha', h6⟩ := ih more hrec b hb'
              obtain ⟨info', hinfo', hcpp⟩ := h2
              exact ⟨h1, ⟨info', hinfo ▸ hinfo', hcpp⟩, hso ▸ h3, hal ▸ h4, h5,
                ⟨a', List.mem_cons_of_mem a ha', h6⟩⟩

/-- Every member of the group receives its binding. -/
theorem group_bindings_complete (gid : Nat) (tp ts : String)
    (info : String × String × String) (so al : String)
    (hinfo : numpy_type_info tp = some info)
    (hso : storage_order_for_suffix ts = .ok so)
    (hal : aligned_enum_for_suffix ts = .ok al) :
    ∀ (args : List NpeArgument) (bs : List CodeBinding),
      group_bindings gid tp ts args = .ok bs →
      ∀ a ∈ args,
        CodeBinding.mk gid a.name info.1 so al (is_sparse_type tp) ∈ bs := by
  intro args
  induction args with
  | nil => intro bs _ a ha; cases ha
  | cons a0 as ih =>
    intro bs h a ha
    cases hrec : group_bindings gid tp ts as with
    | error e =>
      simp only [group_bindings, hinfo, hso, hal, hrec] at h
      exact (Except.noConfusion h)
    | ok more =>
      simp only [group_bindings, hinfo, hso, hal, hrec] at h
      cases h
      cases ha with
      | head => exact List.mem_cons_self _ _
      | tail _ ha' => exact List.mem_cons_of_mem _ (ih more hrec a ha')

/-- Soundness of the outer loop: every produced binding comes from an
indexed combination entry whose index is the binding's `group_id`, and its
scalar type / storage order are the ones computed from that entry. -/
theorem code_block_bindings_go_sound (groups : List NpeArgumentGroup) :
    ∀ (l : List (Nat × String × String)) (bs : List CodeBinding),
      code_block_bindings_go groups l = .ok bs →
      ∀ b ∈ bs, ∃ tp ts,
        (b.group_id, tp, ts) ∈ l ∧
        (∃ info, numpy_type_info tp = some info ∧ b.cpp_type = info.1) ∧
        storage_order_for_suffix ts = .ok b.storage_order := by
  intro l
  induction l with
  | nil =>
    intro bs h b hb
    simp only [code_block_bindings_go] at h
    cases h
    cases hb
  | cons e rest ih =>
    intro bs h b hb
    obtain ⟨gid, tp, ts⟩ := e
    cases hg : py_get groups (Int.ofNat gid) with
    | none =>
      simp only [code_block_bindings_go, hg] at h
      exact (Except.noConfusion h)
    | some g =>
      cases hgb : group_bindings gid tp ts g.arguments with
      | error e =>
        simp only [code_block_bindings_go, hg, hgb] at h
        exact (Except.noConfusion h)
      | ok bs1 =>
        cases hrec : code_block_bindings_go groups rest with
        | error e =>
          simp only [code_block_bindings_go, hg, hgb, hrec] at h
          exact (Except.noConfusion h)
        | ok more =>
          simp only [code_block_bindings_go, hg, hgb, hrec] at h
          cases h
          rcases List.mem_append.1 hb with hb1 | hb2
          · obtain ⟨h1, h2, h3, _, _, _⟩ := group_bindings_mem gid tp ts g.arguments bs1 hgb b hb1
            exact ⟨tp, ts, by rw [h1]; exact List.mem_cons_self _ _, h2, h3⟩
          · obtain ⟨tp', ts', hmem, h2, h3⟩ := ih more hrec b hb2
            exact ⟨tp', ts', List.mem_cons_of_mem _ hmem, h2, h3⟩

/-- Completeness of the outer loop: for every indexed combination entry and
every member argument of the addressed group, the corresponding binding is
produced. -/
theorem code_block_bindings_go_complete (groups : List NpeArgumentGroup)
    (gid : Nat) (tp ts : String) (g : NpeArgumentGroup)
    (info : String × String × String) (so al : String)
    (hg : py_get groups (Int.ofNat gid) = some g)
    (hinfo : numpy_type_info tp = some info)
    (hso : storage_order_for_suffix ts = .ok so)
    (hal : aligned_enum_for_suffix ts = .ok al) :
    ∀ (l : List (Nat × String × String)) (bs : List CodeBinding),
      code_block_bindings_go groups l = .ok bs →
      (gid, tp, ts) ∈ l →
      ∀ a ∈ g.arguments,
        CodeBinding.mk gid a.name info.1 so al (is_sparse_type tp) ∈ bs := by
  intro l
  induction l with
  | nil => intro bs _ hmem; cases hmem
  | cons e rest ih =>
    intro bs h hmem a ha
    obtain ⟨gid', tp', ts'⟩ := e
    cases hg' : py_get groups (Int.ofNat gid') with
    | none =>
      simp only [code_block_bindings_go, hg'] at h
      exact (Except.noConfusion h)
    | some g' =>
      cases hgb : group_bindings gid' tp' ts' g'.arguments with
      | error e =>
        simp only [code_block_bindings_go, hg', hgb] at h
        exact (Except.noConfusion h)
      | ok bs1 =>
        cases hrec : code_block_bindings_go groups rest with
        | error e =>
          simp only [code_block_bindings_go, hg', hgb, hrec] at h
          exact (Except.noConfusion h)
        | ok more =>
          simp only [code_block_bindings_go, hg', hgb, hrec] at h
          cases h
          cases hmem with
          | head =>
            have hgg : g' = g := by rw [hg'] at hg; injection hg
            rw [hgg] at hgb
            exact List.mem_append.2 (Or.inl
              (group_bindings_complete gid tp ts info so al hinfo hso hal
                g.arguments bs1 hgb a ha))
          | tail _ hmem' =>
            exact List.mem_append.2 (Or.inr (ih more hrec hmem' a ha))

/-- A member of a list contributes its image contiguously to a `flatMap`. -/
theorem flatMap_mem_split {α β : Type} (f : α → List β) :
    ∀ (l : List α) (a : α), a ∈ l →
      ∃ pre post, l.flatMap f = pre ++ f a ++ post := by
  intro l
  induction l with
  | nil => intro a ha; cases ha
  | cons x xs ih =>
    intro a ha
    cases ha with
    | head => exact ⟨[], xs.flatMap f, by simp⟩
    | tail _ ha' =>
      obtain ⟨pre, post, hsplit⟩ := ih a ha'
      exact ⟨f x ++ pre, post, by simp [hsplit]⟩

/-- C3 (group-sharing invariant): in every emitted dispatch branch (a
combination `combo` chosen by `write_body`, source lines 924-948), every
member argument of TypeGroup `i` is bound by `write_code_block` (source
lines 840-892) to the branch's fixed (element type, storage layout) choice
`(tp, ts)` for that group.  Concretely, for the typedef data
`code_block_bindings` from which `write_code_block` renders the branch's
chunks (the nested loops of source lines 842-868):
(1) every member argument `arg` of group `i` receives the binding built
from `combo`'s entry for group `i` — scalar type `info.1`, storage order
`so`, alignment `al`;
(2) every produced binding `b2` tagged with group `i` carries exactly that
scalar type and storage order (so any two members of one group are bound
identically — apply (2) to both);
(3) the branch's emitted block is literally the brace-wrapped rendering of
these bindings followed by the `callit` invocation (source lines 841-892);
(4) the member's typedef chunks, rendered from the branch's fixed choice,
appear contiguously inside that block. -/
theorem c3_group_sharing_invariant (f : NpeFunction)
    (combo : List (String × String)) (bs : List CodeBinding)
    (i : Nat) (tp ts : String) (g : NpeArgumentGroup) (arg : NpeArgument)
    (b2 : CodeBinding) (info : String × String × String) (so al : String)
    (hb : code_block_bindings f combo = .ok bs)
    (hc : combo.get? i = some (tp, ts))
    (hg : py_get f.input_type_groups (Int.ofNat i) = some g)
    (harg : arg ∈ g.arguments)
    (hinfo : numpy_type_info tp = some info)
    (hso : storage_order_for_suffix ts = .ok so)
    (hal : aligned_enum_for_suffix ts = .ok al)
    (hb2 : b2 ∈ bs) (hgid : b2.group_id = i) :
    CodeBinding.mk i arg.name info.1 so al (is_sparse_type tp) ∈ bs ∧
    b2.cpp_type = info.1 ∧ b2.storage_order = so ∧
    write_code_block f combo =
      .ok (["\x7b\n"] ++ bs.flatMap render_binding ++
        [code_block_call_str f, "\x7d\n"]) ∧
    ∃ pre post, bs.flatMap render_binding =
      pre ++ render_binding (CodeBinding.mk i arg.name info.1 so al
        (is_sparse_type tp)) ++ post := by
  have hmem : (i, tp, ts) ∈ with_indices 0 combo :=
    (with_indices_mem_iff combo 0 i (tp, ts)).2 ⟨i, hc, by omega⟩
  have h1 : CodeBinding.mk i arg.name info.1 so al (is_sparse_type tp) ∈ bs :=
    code_block_bindings_go_complete f.input_type_groups i tp ts g info so al
      hg hinfo hso hal (with_indices 0 combo) bs hb hmem arg harg
  refine ⟨h1, ?_, ?_, ?_, ?_⟩
  · obtain ⟨tp', ts', hmem', ⟨info', hinfo', hcpp⟩, hso'⟩ :=
      code_block_bindings_go_sound f.input_type_groups (with_indices 0 combo) bs hb b2 hb2
    rw [hgid] at hmem'
    have hsame : (tp', ts') = (tp, ts) :=
      with_indices_functional combo 0 i (tp', ts') (tp, ts) hmem' hmem
    obtain ⟨htp, hts⟩ := Prod.mk.injEq .. ▸ hsame
    rw [htp] at hinfo'
    rw [hinfo] at hinfo'
    injection hinfo' with hii
    rw [hcpp, ← hii]
  · obtain ⟨tp', ts', hmem', ⟨info', hinfo', hcpp⟩, hso'⟩ :=
      code_block_bindings_go_sound f.input_type_groups (with_indices 0 combo) bs hb b2 hb2
    rw [hgid] at hmem'
    have hsame : (tp', ts') = (tp, ts) :=
      with_indices_functional combo 0 i (tp', ts') (tp, ts) hmem' hmem
    obtain ⟨htp, hts⟩ := Prod.mk.injEq .. ▸ hsame
    rw [hts] at hso'
    rw [hso] at hso'
    injection hso' with hss
    exact hss.symm
  · simp only [write_code_block, hb]
  · exact flatMap_mem_split render_binding bs _ h1

/-- The group and member metadata of Scenario A's single type group, as the
parser stores them (flags are the insertion-time snapshot). -/
def scenarioA_group : NpeArgumentGroup :=
  { arguments :=
      [ { name := "a", is_matches := false,
          name_or_type := ["dense_f32", "dense_f64"], line_number := 1 },
        { name := "b", is_matches := true,
          name_or_type := ["npe_matches(a)"], line_number := 1 } ],
    types := ["dense_f32", "dense_f64"] }

/-- The bindings of Scenario A's `(dense_f32, _cm)` branch. -/
def scenarioA_bs : List CodeBinding :=
  match code_block_bindings scenarioA_f [("dense_f32", "_cm")] with
  | .ok bs => bs
  | .error _ => []

theorem c3_group_sharing_invariant_witness :
    CodeBinding.mk 0 "b" "float" "npe::detail::StorageOrder::ColMajor"
      "npe::detail::Alignment::Aligned" false ∈ scenarioA_bs ∧
    (CodeBinding.mk 0 "a" "float" "npe::detail::StorageOrder::ColMajor"
      "npe::detail::Alignment::Aligned" false).cpp_type = "float" ∧
    (CodeBinding.mk 0 "a" "float" "npe::detail::StorageOrder::ColMajor"
      "npe::detail::Alignment::Aligned" false).storage_order =
      "npe::detail::StorageOrder::ColMajor" ∧
    write_code_block scenarioA_f [("dense_f32", "_cm")] =
      .ok (["\x7b\n"] ++ scenarioA_bs.flatMap render_binding ++
        [code_block_call_str scenarioA_f, "\x7d\n"]) := by
  have h := c3_group_sharing_invariant scenarioA_f [("dense_f32", "_cm")] scenarioA_bs
    0 "dense_f32" "_cm" scenarioA_group
    { name := "b", is_matches := true,
      name_or_type := ["npe_matches(a)"], line_number := 1 }
    (CodeBinding.mk 0 "a" "float" "npe::detail::StorageOrder::ColMajor"
      "npe::detail::Alignment::Aligned" false)
    ("float", "f32", "float32") "npe::detail::StorageOrder::ColMajor"
    "npe::detail::Alignment::Aligned"
    rfl rfl rfl (by decide) rfl rfl rfl (by decide) rfl
  exact ⟨h.1, h.2.1, h.2.2.1, h.2.2.2.1⟩

/-! ## Lemmas about the statement guards -/

/-- A statement guard can never fire on a line whose stripped text is
empty. -/
theorem statement_guard_false_of_nil (tok l : String) (c : Char) (cs : List Char)
    (htok : tok.data = c :: cs) (hd : (py_strip l).data = []) :
    statement_guard tok l = false := by
  simp only [statement_guard, py_startswith, htok, hd, List.isPrefixOf, Bool.false_and]

/-- A statement guard can never fire on a line whose stripped text starts
with a different character than the statement token. -/
theorem statement_guard_false_head_mismatch (tok l : String) (c c' : Char)
    (cs cs' : List Char)
    (htok : tok.data = c :: cs) (hd : (py_strip l).data = c' :: cs')
    (hne : (c == c') = false) :
    statement_guard tok l = false := by
  simp only [statement_guard, py_startswith, htok, hd, List.isPrefixOf, hne,
    Bool.false_and]

/-- A comment line (stripped text starting `//`) starts with a slash. -/
theorem comment_head (l : String) (h : py_startswith (py_strip l) "//" = true) :
    ∃ cs, (py_strip l).data = '/' :: cs := by
  unfold py_startswith at h
  cases hdata : (py_strip l).data with
  | nil =>
    rw [hdata] at h
    exact absurd h (by decide)
  | cons c rest =>
    rw [hdata] at h
    have hbeq : ('/' == c) = true := by
      by_contra hne
      have hne' : ('/' == c) = false := by revert hne; cases ('/' == c) <;> simp
      simp [List.isPrefixOf, hne'] at h
    have hc : c = '/' := (beq_iff_eq.1 hbeq).symm
    exact ⟨rest, by rw [hc]⟩

/-! ## Lemmas about body capture (phase 3) -/
/-- Before the end token is seen, every line failing the `npe_end_code`
guard is appended verbatim to the captured body. -/
theorem parse_body_loop_no_guard :
    ∀ (lines src : List String),
      (∀ l ∈ lines, end_code_guard l = false) →
      parse_body_loop lines src false = .ok (src ++ lines, false) := by
  intro lines
  induction lines with
  | nil => intro src _; simp [parse_body_loop]
  | cons l ls ih =>
    intro src h
    have hl := h l (List.mem_cons_self l ls)
    have step : parse_body_loop (l :: ls) src false =
        parse_body_loop ls (src ++ [l]) false := by
      simp [parse_body_loop, hl]
    rw [step, ih (src ++ [l]) (fun x hx => h x (List.mem_cons_of_mem l hx))]
    simp

/-- Splitting the body loop at its first guard hit: the prefix that never
fires the guard is consumed into the body accumulator. -/
theorem parse_body_loop_split :
    ∀ (pre post src : List String),
      (∀ l ∈ pre, end_code_guard l = false) →
      parse_body_loop (pre ++ post) src false =
        parse_body_loop post (src ++ pre) false := by
  intro pre
  induction pre with
  | nil => intro post src _; simp
  | cons l ls ih =>
    intro post src h
    have hl := h l (List.mem_cons_self l ls)
    have step : parse_body_loop (l :: (ls ++ post)) src false =
        parse_body_loop (ls ++ post) (src ++ [l]) false := by
      simp [parse_body_loop, hl]
    rw [List.cons_append, step,
      ih post (src ++ [l]) (fun x hx => h x (List.mem_cons_of_mem l hx))]
    simp

/-- After the end token: blank lines and well-formed repeated end-code
statements are silently accepted, leaving the captured body unchanged. -/
theorem parse_body_loop_after_end :
    ∀ (lines src : List String),
      (∀ l ∈ lines, py_len (py_strip l) = 0 ∨
        (end_code_guard l = true ∧
          parse_code_fence_statement "npe_end_code" l 1 = .ok ())) →
      parse_body_loop lines src true = .ok (src, true) := by
  intro lines
  induction lines with
  | nil => intro src _; simp [parse_body_loop]
  | cons l ls ih =>
    intro src h
    rcases h l (List.mem_cons_self l ls) with hblank | ⟨hguard, hfence⟩
    · have hdata : (py_strip l).data = [] := List.length_eq_zero.1 hblank
      have hg : end_code_guard l = false :=
        statement_guard_false_of_nil "npe_end_code" l 'n' _ rfl hdata
      have step : parse_body_loop (l :: ls) src true =
          parse_body_loop ls src true := by
        simp [parse_body_loop, hg, hblank]
      rw [step]
      exact ih src (fun x hx => h x (List.mem_cons_of_mem l hx))
    · have step : parse_body_loop (l :: ls) src true =
          parse_body_loop ls src true := by
        simp [parse_body_loop, hguard, hfence]
      rw [step]
      exact ih src (fun x hx => h x (List.mem_cons_of_mem l hx))

/-- After the end token, the first non-blank line that is not an end-code
statement raises the "expected end of file" error. -/
theorem parse_body_loop_bad_after :
    ∀ (mid : List String) (bad : String) (rest src : List String),
      (∀ l ∈ mid, py_len (py_strip l) = 0 ∨
        (end_code_guard l = true ∧
          parse_code_fence_statement "npe_end_code" l 1 = .ok ())) →
      end_code_guard bad = false →
      py_len (py_strip bad) ≠ 0 →
      parse_body_loop (mid ++ bad :: rest) src true =
        .error (.expectedEndOfFile 1) := by
  intro mid
  induction mid with
  | nil =>
    intro bad rest src _ hbadg hbadnz
    simp [parse_body_loop, hbadg, hbadnz]
  | cons l ls ih =>
    intro bad rest src h hbadg hbadnz
    rcases h l (List.mem_cons_self l ls) with hblank | ⟨hguard, hfence⟩
    · have hdata : (py_strip l).data = [] := List.length_eq_zero.1 hblank
      have hg : end_code_guard l = false :=
        statement_guard_false_of_nil "npe_end_code" l 'n' _ rfl hdata
      have step : parse_body_loop (l :: (ls ++ bad :: rest)) src true =
          parse_body_loop (ls ++ bad :: rest) src true := by
        simp [parse_body_loop, hg, hblank]
      rw [List.cons_append, step]
      exact ih bad rest src (fun x hx => h x (List.mem_cons_of_mem l hx)) hbadg hbadnz
    · have step : parse_body_loop (l :: (ls ++ bad :: rest)) src true =
          parse_body_loop (ls ++ bad :: rest) src true := by
        simp [parse_body_loop, hguard, hfence]
      rw [List.cons_append, step]
      exact ih bad rest src (fun x hx => h x (List.mem_cons_of_mem l hx)) hbadg hbadnz

/-- C6 counterexample: after a first `npe_end_code()` statement, a SECOND
`npe_end_code()` line — non-blank content following the end-code
statement — raises no error at all: the capture succeeds with the body
`["foo;"]`.  The claim says any non-blank content after the end-code
statement raises an error. -/
theorem c6_counterexample :
    parse_body ["foo;", "npe_end_code()", "npe_end_code()"] = .ok ["foo;"] ∧
    py_len (py_strip "npe_end_code()") ≠ 0 := by
  constructor
  · rfl
  · decide

/-- C6 (amended): body capture copies every line verbatim until the first
line recognized as an end-code statement; after that statement, any
non-blank line raises the "expected end of file" error UNLESS it is itself
a well-formed end-code statement (which is accepted and ignored); reaching
end-of-input before an end-code statement raises the "unexpected EOF"
error. -/
theorem c6_body_capture_amended :
    (∀ lines : List String,
      (∀ l ∈ lines, end_code_guard l = false) →
      parse_body lines = .error .unexpectedEndOfFile) ∧
    (∀ (pre : List String) (e : String) (post : List String),
      (∀ l ∈ pre, end_code_guard l = false) →
      end_code_guard e = true →
      parse_code_fence_statement "npe_end_code" e 1 = .ok () →
      (∀ l ∈ post, py_len (py_strip l) = 0 ∨
        (end_code_guard l = true ∧
          parse_code_fence_statement "npe_end_code" l 1 = .ok ())) →
      parse_body (pre ++ e :: post) = .ok pre) ∧
    (∀ (pre : List String) (e : String) (mid : List String) (bad : String)
        (rest : List String),
      (∀ l ∈ pre, end_code_guard l = false) →
      end_code_guard e = true →
      parse_code_fence_statement "npe_end_code" e 1 = .ok () →
      (∀ l ∈ mid, py_len (py_strip l) = 0 ∨
        (end_code_guard l = true ∧
          parse_code_fence_statement "npe_end_code" l 1 = .ok ())) →
      end_code_guard bad = false →
      py_len (py_strip bad) ≠ 0 →
      parse_body (pre ++ e :: (mid ++ bad :: rest)) =
        .error (.expectedEndOfFile 1)) := by
  refine ⟨?_, ?_, ?_⟩
  · intro lines h
    rw [parse_body, parse_body_loop_no_guard lines [] h]
  · intro pre e post hpre hg hfence hpost
    rw [parse_body, parse_body_loop_split pre (e :: post) [] hpre]
    have step : parse_body_loop (e :: post) ([] ++ pre) false =
        parse_body_loop post pre true := by
      simp [parse_body_loop, hg, hfence]
    rw [step, parse_body_loop_after_end post pre hpost]
  · intro pre e mid bad rest hpre hg hfence hmid hbadg hbadnz
    rw [parse_body, parse_body_loop_split pre (e :: (mid ++ bad :: rest)) [] hpre]
    have step : parse_body_loop (e :: (mid ++ bad :: rest)) ([] ++ pre) false =
        parse_body_loop (mid ++ bad :: rest) pre true := by
      simp [parse_body_loop, hg, hfence]
    rw [step, parse_body_loop_bad_after mid bad rest pre hmid hbadg hbadnz]

theorem c6_body_capture_amended_witness :
    parse_body ["x = 1;", "npe_end_code()", "", "npe_end_code()"] =
      .ok ["x = 1;"] :=
  c6_body_capture_amended.2.1 ["x = 1;"] "npe_end_code()" ["", "npe_end_code()"]
    (by decide) (by decide) (by decide) (by decide)

/-! ## Lemmas about blank and comment lines in phases 1 and 2 -/

/-- A comment line's stripped text starts with two slashes. -/
theorem comment_head2 (l : String) (h : py_startswith (py_strip l) "//" = true) :
    ∃ cs, (py_strip l).data = '/' :: '/' :: cs := by
  obtain ⟨cs0, hd⟩ := comment_head l h
  unfold py_startswith at h
  rw [hd] at h
  cases cs0 with
  | nil => simp [List.isPrefixOf] at h
  | cons c2 rest =>
    have hbeq : ('/' == c2) = true := by
      by_contra hne
      have hne' : ('/' == c2) = false := by revert hne; cases ('/' == c2) <;> simp
      simp [List.isPrefixOf, hne'] at h
    have hc : c2 = '/' := (beq_iff_eq.1 hbeq).symm
    exact ⟨rest, by rw [hd, hc]⟩

/-- The phase-2 comment test (`line.strip().lower().startswith("//")`)
holds for a comment line. -/
theorem lowered_comment_startswith (l : String)
    (h : py_startswith (py_strip l) "//" = true) :
    py_startswith (py_lower (py_strip l)) "//" = true := by
  obtain ⟨cs, hd⟩ := comment_head2 l h
  simp only [py_startswith, py_lower, hd, List.map_cons]
  simp [List.isPrefixOf, Char.toLower]

/-- All statement guards fail on a comment line (a token starting with `n`
cannot be a prefix of text starting with `/`). -/
theorem statement_guard_false_of_comment (tok l : String) (cs : List Char)
    (htok : tok.data = 'n' :: cs) (h : py_startswith (py_strip l) "//" = true) :
    statement_guard tok l = false := by
  obtain ⟨cs', hd⟩ := comment_head2 l h
  exact statement_guard_false_head_mismatch tok l 'n' '/' cs ('/' :: cs')
    htok hd (by decide)

/-- A comment line is not blank. -/
theorem comment_not_blank (l : String)
    (h : py_startswith (py_strip l) "//" = true) :
    py_len (py_strip l) ≠ 0 := by
  obtain ⟨cs, hd⟩ := comment_head2 l h
  simp [py_len, hd]

/-- C8 counterexample: in phase 1 a comment line is NOT ignored — it is
accumulated verbatim into the preamble.  The claim says comment lines in
phases 1-2 are never accumulated into `preamble_text`. -/
theorem c8_counterexample :
    parse_phase1 ["// hello", "npe_function(foo)"] [] =
      .ok ("foo", ["// hello"], []) ∧
    py_startswith (py_strip "// hello") "//" = true := by
  constructor
  · rfl
  · decide

/-- C8 (amended): a blank line is skipped with no effect in phase 1 and —
outside multi-line doc accumulation — in phase 2; a comment line is skipped
with no effect in phase 2 outside doc accumulation, but in phase 1 it is
treated as an unrecognized line and appended verbatim to the preamble, and
during doc accumulation it is appended to the doc text like any other
line. -/
theorem c8_blank_comment_handling_amended :
    (∀ (l : String) (lines : List String) (pre : List String),
      py_len (py_strip l) = 0 →
      parse_phase1 (l :: lines) pre = parse_phase1 lines pre) ∧
    (∀ (l : String) (lines : List String) (pre : List String),
      py_startswith (py_strip l) "//" = true →
      parse_phase1 (l :: lines) pre = parse_phase1 lines (pre ++ [l])) ∧
    (∀ (l : String) (lines : List String) (st : Phase2State),
      st.parsing_doc = false →
      py_len (py_strip l) = 0 →
      parse_phase2 (l :: lines) st = parse_phase2 lines st) ∧
    (∀ (l : String) (lines : List String) (st : Phase2State),
      st.parsing_doc = false →
      py_startswith (py_strip l) "//" = true →
      parse_phase2 (l :: lines) st = parse_phase2 lines st) ∧
    (∀ (l : String) (lines : List String) (st : Phase2State),
      st.parsing_doc = true →
      py_startswith (py_strip l) "//" = true →
      parse_phase2 (l :: lines) st =
        parse_phase2 lines { st with doc_lines := st.doc_lines ++ l ++ "\n" }) := by
  refine ⟨?_, ?_, ?_, ?_, ?_⟩
  · intro l lines pre hblank
    simp [parse_phase1, hblank]
  · intro l lines pre hcom
    have h1 := statement_guard_false_of_comment "npe_arg" l _ rfl hcom
    have h2 := statement_guard_false_of_comment "npe_default_arg" l _ rfl hcom
    have h3 := statement_guard_false_of_comment "npe_begin_code" l _ rfl hcom
    have h4 := statement_guard_false_of_comment "npe_end_code" l _ rfl hcom
    have h5 := statement_guard_false_of_comment "npe_dtype" l _ rfl hcom
    have h6 := statement_guard_false_of_comment "npe_doc" l _ rfl hcom
    have h7 := statement_guard_false_of_comment "npe_function" l _ rfl hcom
    have hnz := comment_not_blank l hcom
    simp [parse_phase1, h1, h2, h3, h4, h5, h6, h7, hnz]
  · intro l lines st hdoc hblank
    have hdata : (py_strip l).data = [] := List.length_eq_zero.1 hblank
    have h1 := statement_guard_false_of_nil "npe_arg" l 'n' _ rfl hdata
    have h2 := statement_guard_false_of_nil "npe_default_arg" l 'n' _ rfl hdata
    have h3 := statement_guard_false_of_nil "npe_doc" l 'n' _ rfl hdata
    have h4 := statement_guard_false_of_nil "npe_begin_code" l 'n' _ rfl hdata
    simp [parse_phase2, h1, h2, h3, h4, hdoc, hblank]
  · intro l lines st hdoc hcom
    have h1 := statement_guard_false_of_comment "npe_arg" l _ rfl hcom
    have h2 := statement_guard_false_of_comment "npe_default_arg" l _ rfl hcom
    have h3 := statement_guard_false_of_comment "npe_doc" l _ rfl hcom
    have h4 := statement_guard_false_of_comment "npe_begin_code" l _ rfl hcom
    have hnz := comment_not_blank l hcom
    have hlow := lowered_comment_startswith l hcom
    simp [parse_phase2, h1, h2, h3, h4, hdoc, hnz, hlow]
  · intro l lines st hdoc hcom
    have h1 := statement_guard_false_of_comment "npe_arg" l _ rfl hcom
    have h2 := statement_guard_false_of_comment "npe_default_arg" l _ rfl hcom
    have h3 := statement_guard_false_of_comment "npe_doc" l _ rfl hcom
    have h4 := statement_guard_false_of_comment "npe_begin_code" l _ rfl hcom
    simp [parse_phase2, h1, h2, h3, h4, hdoc]

theorem c8_blank_comment_handling_amended_witness :
    parse_phase1 ["// c", "npe_function(f)"] [] =
      parse_phase1 ["npe_function(f)"] ["// c"] :=
  c8_blank_comment_handling_amended.2.1 "// c" ["npe_function(f)"] [] (by decide)

/-! ## The group-index defect (claims C2, C4, C7) and the line counter
defect (claim C5) -/

/-- C2: with an earlier type group already present, declaring
`npe_matches(a)` BEFORE `a`'s own statement records the wrong group index
(`len - 1` is computed before the new group is appended, source line 444),
so `a`'s later statement trips the source's own
`assert len(self._input_type_groups[group_id].types) == 0` (source
line 420): the parse dies with an `AssertionError` instead of placing both
arguments in one shared group. -/
theorem c2_matches_before_assertion_failure :
    (do
      let s1 ← parse_arg_tokens npe_function_init ["c", "dense_i32"] 1 false
      let s2 ← parse_arg_tokens s1 ["b", "npe_matches(a)"] 1 false
      parse_arg_tokens s2 ["a", "dense_f32"] 1 false :
        Except NpeError NpeFunction) = .error .assertionError := rfl

/-- C4 failing input: `y` is declared only by `npe_matches(z)` (and `z` is
never declared), and a second argument `c` then creates a real group. -/
def c4_lines : List String :=
  ["npe_function(foo)",
   "npe_arg(y, npe_matches(z))",
   "npe_arg(c, dense_f32)",
   "npe_begin_code()",
   "return 1;",
   "npe_end_code()"]

/-- C4: on `c4_lines`, `y`'s own TypeGroup (created by its deferred
reference) still has an EMPTY candidate-type list after parsing, yet the
final validation pass raises no error at all: the recorded group index for
`y` is `-1` (source line 444 computes it before the append), and Python's
negative indexing makes the validation look at the LAST group — `c`'s —
whose type list is non-empty.  The claim says such an argument must raise a
SemanticError ("unmatched"). -/
theorem c4_unmatched_not_detected :
    (npe_function_of_lines c4_lines).toOption.map
        (fun f => f.input_type_groups.map NpeArgumentGroup.types) =
      some [[], ["dense_f32"]] ∧
    (npe_function_of_lines c4_lines).toOption.map
        (fun f => (dict_get f.arguments "y").map NpeArgument.is_matches) =
      some (some true) ∧
    (npe_function_of_lines c4_lines).toOption.map
        (fun f => dict_get f.argument_name_to_group "y") =
      some (some (-1)) := by
  refine ⟨rfl, rfl, rfl⟩

/-- Scenario B of the spec: one argument mixing a dense and a sparse
candidate type; its statement is the SECOND line of the input. -/
def c5_lines : List String :=
  ["npe_function(foo)",
   "npe_arg(x, dense_f32, sparse_f64)",
   "npe_begin_code()",
   "npe_end_code()"]

/-- C5: validation does reject the mixed sparse/dense argument with a
SemanticError naming `x` — but the line number it reports is the constant
1, not the argument's actual source line (2): the reader's line counter is
never advanced during iteration (see the header comment), so every
argument's recorded `line_number` is 1.  No output is generated (the
error propagates out of `NpeFunction.__init__` before the output file is
opened). -/
theorem c5_mixed_types_wrong_line :
    npe_function_of_lines c5_lines =
      .error (.semanticMixedSparseDense "x" 1) ∧
    (main_compile c5_lines "a.cpp").outFile = none ∧
    (main_compile c5_lines "a.cpp").exitCode = 1 := by
  refine ⟨rfl, rfl, rfl⟩

/-- C7 failing input: passes parsing and validation (because of the `-1`
group-index defect), then crashes the code generator. -/
def c7_lines : List String :=
  ["npe_function(foo)",
   "npe_arg(y, npe_matches(z))",
   "npe_arg(c, dense_f32)",
   "npe_begin_code()",
   "return 1;",
   "npe_end_code()"]

/-- C7: on `c7_lines` compilation fails (nonzero exit code after an
unhandled `IndexError` — `pretty_group_types[0]` on the empty-typed group
in `write_declaration`, source line 818) yet an output file EXISTS and is
left partially written: the header and all declaration chunks emitted
before the crash remain in it.  The claim says no output file is ever
produced or left partially written when compilation fails. -/
theorem c7_partial_output_on_crash :
    (main_compile c7_lines "a.cpp").exitCode = 1 ∧
    (main_compile c7_lines "a.cpp").errorOut = some .indexError ∧
    out_file_completed (main_compile c7_lines "a.cpp") = some false ∧
    out_file_has_chunks (main_compile c7_lines "a.cpp") = some true := by
  refine ⟨rfl, rfl, rfl, rfl⟩

/-! ## C9: determinism -/

/-- C9: the pipeline is a pure function of the input lines and the
configuration globals; it never writes a module global, so running it twice
in sequence — the second run starting from the global state the first run
left behind — produces identical results, and the global state is
unchanged. -/
theorem c9_pipeline_deterministic :
    ∀ (g : Globals) (lines : List String),
      (compile_run g lines).1 = (compile_run (compile_run g lines).2 lines).1 ∧
      (compile_run g lines).2 = g :=
  fun _ _ => ⟨rfl, rfl⟩

/-! ## C10: case-insensitive type recognition, original spelling stored -/

/-- C10: `is_numpy_type` accepts a token exactly when its lowercased form
is a key of the type catalog; and an argument declared with any token that
passes `is_numpy_type` — such as the non-lowercase `DENSE_F32` — is
accepted by the argument parser, which stores the token in its ORIGINAL
spelling as the sole candidate type of the argument's new TypeGroup. -/
theorem c10_case_insensitive_recognition :
    (∀ s : String,
      is_numpy_type s = true ↔ py_lower s ∈ NUMPY_ARRAY_TYPES_TO_CPP.map Prod.fst) ∧
    (∀ name tok : String,
      is_numpy_type tok = true →
      parse_arg_tokens npe_function_init [name, tok] 1 false =
        .ok { name := "",
              input_type_groups :=
                [{ arguments :=
                     [{ name := name, is_matches := false, name_or_type := [tok],
                        line_number := 1 }],
                   types := [tok] }],
              argument_name_to_group := [(name, 0)],
              argument_names := [name],
              arguments :=
                [(name, { name := name, is_matches := false, name_or_type := [tok],
                          line_number := 1 })],
              source_code := [], preamble := [], docstr := "" }) := by
  constructor
  · intro s
    simp only [is_numpy_type, NUMPY_ARRAY_TYPES]
    exact List.elem_iff
  · intro name tok h
    simp only [parse_arg_tokens, List.length_cons, List.length_nil,
      List.headD_cons]
    simp [h, dict_get, dict_set, py_set, py_index, npe_function_init]

theorem c10_case_insensitive_recognition_witness :
    is_numpy_type "DENSE_F32" = true ∧
    parse_arg_tokens npe_function_init ["x", "DENSE_F32"] 1 false =
      .ok { name := "",
            input_type_groups :=
              [{ arguments :=
                   [{ name := "x", is_matches := false,
                      name_or_type := ["DENSE_F32"], line_number := 1 }],
                 types := ["DENSE_F32"] }],
            argument_name_to_group := [("x", 0)],
            argument_names := ["x"],
            arguments :=
              [("x", { name := "x", is_matches := false,
                       name_or_type := ["DENSE_F32"], line_number := 1 })],
            source_code := [], preamble := [], docstr := "" } :=
  ⟨by decide, c10_case_insensitive_recognition.2 "x" "DENSE_F32" (by decide)⟩
